import Mathlib

/-!
# VideoLayerAndroid: the render pass of a video compositor node

A shallow embedding of `Source/WebCore/platform/graphics/android/VideoLayerAndroid.cpp`.

* Scalars (`SkScalar`, `double`) are exact rationals.
* The process-wide static members live in `VideoLayerStatics`, threaded through every call.
* Calls into collaborators (shader, video layer manager, surface texture, observer, GL) are
  recorded, in program order, as a list of `GLEvent`; what the collaborators answer is read
  from a `Collaborators` record.
-/

namespace WebCore

/-! ## Data model -/

/-- Modelled from the spec: the `PlayerState` enum is declared in `VideoLayerAndroid.h`, which is
not part of the sources at hand. The spec lists
`INITIALIZED, PREPARING, PREPARED, PLAYING, BUFFERING, ...`; the trailing dots are kept as
`OTHER`, so that every statement below also covers enumerators the spec does not name. -/
inductive PlayerState
  | INITIALIZED
  | PREPARING
  | PREPARED
  | PLAYING
  | BUFFERING
  | OTHER (tag : Nat)
  deriving DecidableEq, Repr

/-- Modelled from the spec: `IMAGESIZE` and `ROTATESTEP` are macros of `VideoLayerAndroid.h`,
which is not part of the sources at hand; they are taken as parameters. `IMAGESIZE` is an
integer (it initialises the `IntRect` `buttonRect`), `ROTATESTEP` is added to a `double`. -/
structure Constants where
  IMAGESIZE : Int
  ROTATESTEP : Rat
  deriving DecidableEq, Repr

/-- Skia's `SkSize`. -/
structure SkSize where
  fWidth : Rat
  fHeight : Rat
  deriving DecidableEq, Repr

/-- WebCore's `IntSize`. -/
structure IntSize where
  m_width : Int
  m_height : Int
  deriving DecidableEq, Repr

/-- WebCore's `IntRect`, stored as location and size. -/
structure IntRect where
  x : Int
  y : Int
  width : Int
  height : Int
  deriving DecidableEq, Repr

/-- Skia's `SkRect`. -/
structure SkRect where
  fLeft : Rat
  fTop : Rat
  fRight : Rat
  fBottom : Rat
  deriving DecidableEq, Repr

namespace SkRect

/-- The method `SkRect::width`. -/
def width (r : SkRect) : Rat := r.fRight - r.fLeft

/-- The method `SkRect::height`. -/
def height (r : SkRect) : Rat := r.fBottom - r.fTop

/-- The method `SkRect::isEmpty`. -/
def isEmpty (r : SkRect) : Bool := decide (r.fLeft ≥ r.fRight) || decide (r.fTop ≥ r.fBottom)

/-- The factory `SkRect::MakeWH`. -/
def MakeWH (w h : Rat) : SkRect := ⟨0, 0, w, h⟩

/-- The factory `SkRect::MakeSize`. -/
def MakeSize (size : SkSize) : SkRect := ⟨0, 0, size.fWidth, size.fHeight⟩

/-- The method `SkRect::offset`. -/
def offset (r : SkRect) (dx dy : Rat) : SkRect :=
  ⟨r.fLeft + dx, r.fTop + dy, r.fRight + dx, r.fBottom + dy⟩

/-- Modelled from the spec: `SkRect::contains(const SkRect&)` belongs to Skia, whose sources are
not at hand. The spec's centering rule reads "the bounds fully contain the default-positioned
icon rect"; Skia's method additionally answers false when either rectangle is empty, which is
kept here. The two readings agree whenever the inner rectangle is not empty. -/
def contains (r inner : SkRect) : Bool :=
  !inner.isEmpty && !r.isEmpty &&
    decide (r.fLeft ≤ inner.fLeft) && decide (r.fTop ≤ inner.fTop) &&
    decide (r.fRight ≥ inner.fRight) && decide (r.fBottom ≥ inner.fBottom)

/-- The conversion `IntRect::operator SkRect`. -/
def ofIntRect (r : IntRect) : SkRect :=
  ⟨(r.x : Rat), (r.y : Rat), ((r.x + r.width : Int) : Rat), ((r.y + r.height : Int) : Rat)⟩

end SkRect

/-- The least value of the 32-bit `int`. -/
def INT_MIN : Int := -2147483648

/-- The greatest value of the 32-bit `int`. -/
def INT_MAX : Int := 2147483647

/-- A C++ conversion from a floating scalar to `int`: truncation toward zero. When the
truncated value is not representable in `int` the conversion is undefined in C++, and the
answer is `none`. -/
def scalarToInt (q : Rat) : Option Int :=
  let t := q.num.tdiv (q.den : Int)
  if INT_MIN ≤ t ∧ t ≤ INT_MAX then some t else none

/-- The constructor call `IntSize size(width, height)` on two scalars, as on line 275: each
argument is converted to `int`. -/
def IntSize.ofScalars (width height : Rat) : Option IntSize :=
  match scalarToInt width, scalarToInt height with
  | some w, some h => some ⟨w, h⟩
  | _, _ => none

/-- WebCore's `TransformationMatrix`, kept symbolic: a matrix handed over by the layer tree,
or the result of the in-place `translate` and `rotate` methods. -/
inductive TransformationMatrix
  | given (id : Nat)
  | translate (m : TransformationMatrix) (tx ty : Rat)
  | rotate (m : TransformationMatrix) (degrees : Rat)
  deriving DecidableEq, Repr

/-- A `GLfloat[surfaceMatrixSize]` texture matrix. -/
abbrev GLMatrix := List Rat

/-- The `GLfloat*` argument of `drawVideoLayerQuad`: either the address of the local array
`surfaceMatrix` that `getTransformMatrix` filled in this pass, or the pointer that
`VideoLayerManager::getMatrix` returned. -/
inductive MatrixArg
  | surfaceMatrix (m : GLMatrix)
  | cachedMatrix (m : GLMatrix)
  deriving DecidableEq, Repr

/-- A handle to a `SurfaceTexture` object. -/
abbrev SurfaceTexture := Nat

/-- The address of a `VideoLayerObserverInterface` object. -/
abbrev ObserverPtr := Nat

/-- The button kinds of `RenderSkinMediaButton` that this file renders into textures. -/
inductive MediaButton
  | SPINNER_INNER
  | SPINNER_OUTER
  | VIDEO
  deriving DecidableEq, Repr

/-- The static texture members of `VideoLayerAndroid`; `drawLayerQuad` events carry the member
whose value was passed. -/
inductive StaticTexture
  | m_spinnerOuterTextureId
  | m_spinnerInnerTextureId
  | m_posterTextureId
  | m_backgroundTextureId
  deriving DecidableEq, Repr

/-- The static data members of `VideoLayerAndroid` (lines 53 to 59). -/
structure VideoLayerStatics where
  m_spinnerOuterTextureId : Nat
  m_spinnerInnerTextureId : Nat
  m_posterTextureId : Nat
  m_backgroundTextureId : Nat
  m_createdTexture : Bool
  m_rotateDegree : Rat
  deriving DecidableEq, Repr

/-- The values the static members are defined with. -/
def VideoLayerStatics.initial : VideoLayerStatics :=
  { m_spinnerOuterTextureId := 0
    m_spinnerInnerTextureId := 0
    m_posterTextureId := 0
    m_backgroundTextureId := 0
    m_createdTexture := false
    m_rotateDegree := 0 }

/-- The part of the base class `LayerAndroid` that this file reads. -/
structure LayerAndroid where
  m_uniqueId : Int
  m_drawTransform : TransformationMatrix
  m_size : SkSize
  deriving DecidableEq, Repr

/-- The class `VideoLayerAndroid`: the base layer and the three members of its own.
A null `sp<SurfaceTexture>` or observer pointer is `none`. -/
structure VideoLayerAndroid extends LayerAndroid where
  m_playerState : PlayerState
  m_surfaceTexture : Option SurfaceTexture
  m_observer : Option ObserverPtr
  deriving DecidableEq, Repr

/-- What the collaborators answer during one render pass. -/
structure Collaborators where
  /-- The call `VideoLayerManager::getTextureId`; zero when the layer has no texture. -/
  getTextureId : Int → Nat
  /-- The call `VideoLayerManager::getMatrix`; `none` is the null pointer. -/
  getMatrix : Int → Option GLMatrix
  /-- What `SurfaceTexture::getTransformMatrix` writes once `updateTexImage` has run. -/
  getTransformMatrix : SurfaceTexture → GLMatrix
  /-- The name `glGenTextures` hands out inside `createBackgroundTexture`. -/
  genBackgroundTexture : Nat
  /-- The name `glGenTextures` hands out inside `createTextureFromImage`. -/
  genImageTexture : MediaButton → Nat
  /-- The value of `drawChildrenGL()`. -/
  drawChildrenGL : Bool

/-- The value of `ShaderProgram::rectInScreenCoord(drawMatrix, size)`, kept symbolic. -/
structure ScreenRect where
  drawMatrix : TransformationMatrix
  size : IntSize
  deriving DecidableEq, Repr

/-- The symbolic call `ShaderProgram::rectInScreenCoord`. -/
def rectInScreenCoord (drawMatrix : TransformationMatrix) (size : IntSize) : ScreenRect :=
  ⟨drawMatrix, size⟩

/-- The calls into collaborators that a render pass can make. A `notifyRectChange` call
carries `none` when the size conversion of line 275 is undefined. -/
inductive GLEvent
  | createBackgroundTexture (texture : Nat)
  | createTextureFromImage (buttonType : MediaButton) (texture : Nat)
  | updateTexImage (surface : SurfaceTexture)
  | drawVideoLayerQuad (drawMatrix : TransformationMatrix) (textureMatrix : MatrixArg)
      (geometry : SkRect) (textureId : Nat)
  | drawLayerQuad (drawMatrix : TransformationMatrix) (geometry : SkRect)
      (member : StaticTexture) (textureId : Nat) (opacity : Rat) (forceBlending : Bool)
  | updateMatrix (layerId : Int) (matrix : GLMatrix)
  | notifyRectChange (observer : ObserverPtr) (rect : Option ScreenRect)
  | drawChildrenGL
  deriving DecidableEq, Repr

/-- The static members together with the calls made so far. -/
structure World where
  statics : VideoLayerStatics
  trace : List GLEvent
  deriving DecidableEq, Repr

/-- Record one call. -/
def World.emit (w : World) (e : GLEvent) : World :=
  { w with trace := w.trace ++ [e] }

/-! ## Operations -/

/-- The static member `buttonRect` (line 61). -/
def buttonRect (c : Constants) : IntRect := ⟨0, 0, c.IMAGESIZE, c.IMAGESIZE⟩

namespace VideoLayerAndroid

/-- The accessor `LayerAndroid::uniqueId`. -/
def uniqueId (layer : VideoLayerAndroid) : Int := layer.m_uniqueId

/-- The accessor `LayerAndroid::getSize`. -/
def getSize (layer : VideoLayerAndroid) : SkSize := layer.m_size

/-- The default constructor (lines 65 to 70), given the freshly built base layer. -/
def ctor (base : LayerAndroid) : VideoLayerAndroid :=
  { toLayerAndroid := base
    m_playerState := PlayerState.INITIALIZED
    m_surfaceTexture := none
    m_observer := none }

/-- The copy constructor (lines 72 to 79). -/
def copyCtor (layer : VideoLayerAndroid) : VideoLayerAndroid :=
  { toLayerAndroid := layer.toLayerAndroid
    m_playerState := layer.m_playerState
    m_surfaceTexture := none
    m_observer := none }

/-- The method `setPlayerState` (lines 87 to 89). -/
def setPlayerState (layer : VideoLayerAndroid) (state : PlayerState) : VideoLayerAndroid :=
  { layer with m_playerState := state }

/-- The method `setSurfaceTexture` (lines 92 to 99). -/
def setSurfaceTexture (layer : VideoLayerAndroid) (texture : Option SurfaceTexture)
    (_textureName : Int) (playerState : PlayerState) : VideoLayerAndroid :=
  { layer with m_surfaceTexture := texture, m_playerState := playerState }

end VideoLayerAndroid

/-! ### Observer reference counts -/

/-- The reference count `fRefCnt` of every observer object, by address. -/
abbrev RefCounts := ObserverPtr → Int

/-- The method `SkRefCnt::ref` on the object at `p`: the count of the object at `q` afterwards. -/
def RefCounts.ref (rc : RefCounts) (p : ObserverPtr) (q : ObserverPtr) : Int :=
  if q = p then rc q + 1 else rc q

/-- The method `SkRefCnt::unref` on the object at `p`: the count of the object at `q` afterwards. -/
def RefCounts.unref (rc : RefCounts) (p : ObserverPtr) (q : ObserverPtr) : Int :=
  if q = p then rc q - 1 else rc q

/-- Modelled from the spec: Skia's `SkSafeUnref`, whose source is not at hand
("release the held reference"): `unref` unless the pointer is null. -/
def SkSafeUnref (rc : RefCounts) (obj : Option ObserverPtr) : RefCounts :=
  match obj with
  | some p => rc.unref p
  | none => rc

/-- Modelled from the spec: Skia's macro `SkRefCnt_SafeAssign(dst, src)`, whose source is not at
hand ("release the old reference and retain the new one"): `ref` the source unless null,
`unref` the destination unless null, then assign. Returns the new `dst`. -/
def SkRefCnt_SafeAssign (rc : RefCounts) (dst src : Option ObserverPtr) :
    Option ObserverPtr × RefCounts :=
  let rc1 := match src with
    | some p => rc.ref p
    | none => rc
  let rc2 := match dst with
    | some p => rc1.unref p
    | none => rc1
  (src, rc2)

namespace VideoLayerAndroid

/-- The method `registerVideoLayerObserver` (lines 101 to 106); the lock is held throughout. -/
def registerVideoLayerObserver (layer : VideoLayerAndroid) (observer : Option ObserverPtr)
    (rc : RefCounts) : VideoLayerAndroid × RefCounts :=
  if layer.m_observer ≠ observer then
    let r := SkRefCnt_SafeAssign rc layer.m_observer observer
    ({ layer with m_observer := r.1 }, r.2)
  else
    (layer, rc)

/-- The destructor (lines 81 to 85): what it does to the reference counts. -/
def dtor (layer : VideoLayerAndroid) (rc : RefCounts) : RefCounts :=
  SkSafeUnref rc layer.m_observer

end VideoLayerAndroid

/-! ### Textures -/

/-- The method `createTextureFromImage` (lines 123 to 141). -/
def createTextureFromImage (env : Collaborators) (buttonType : MediaButton) (w : World) :
    Nat × World :=
  let texture := env.genImageTexture buttonType
  (texture, w.emit (GLEvent.createTextureFromImage buttonType texture))

/-- The method `createSpinnerInnerTexture` (lines 108 to 111). -/
def createSpinnerInnerTexture (env : Collaborators) (w : World) : Nat × World :=
  createTextureFromImage env MediaButton.SPINNER_INNER w

/-- The method `createSpinnerOuterTexture` (lines 113 to 116). -/
def createSpinnerOuterTexture (env : Collaborators) (w : World) : Nat × World :=
  createTextureFromImage env MediaButton.SPINNER_OUTER w

/-- The method `createPosterTexture` (lines 118 to 121). -/
def createPosterTexture (env : Collaborators) (w : World) : Nat × World :=
  createTextureFromImage env MediaButton.VIDEO w

/-- The method `createBackgroundTexture` (lines 143 to 161). -/
def createBackgroundTexture (env : Collaborators) (w : World) : Nat × World :=
  let texture := env.genBackgroundTexture
  (texture, w.emit (GLEvent.createBackgroundTexture texture))

/-! ### Drawing -/

/-- The method `showProgressSpinner` (lines 163 to 186). The integer quotients
`IMAGESIZE / 2` and `-IMAGESIZE / 2` truncate toward zero. -/
def showProgressSpinner (c : Constants) (layer : VideoLayerAndroid) (innerRect : SkRect)
    (w : World) : World :=
  let addRotation := layer.m_drawTransform
  let addRotation := addRotation.translate innerRect.fLeft innerRect.fTop
  let addRotation := addRotation.translate ((c.IMAGESIZE.tdiv 2 : Int) : Rat)
    ((c.IMAGESIZE.tdiv 2 : Int) : Rat)
  let addReverseRotation := addRotation
  let addRotation := addRotation.rotate w.statics.m_rotateDegree
  let addRotation := addRotation.translate (((-c.IMAGESIZE).tdiv 2 : Int) : Rat)
    (((-c.IMAGESIZE).tdiv 2 : Int) : Rat)
  let size := SkRect.MakeWH innerRect.width innerRect.height
  let w := w.emit (GLEvent.drawLayerQuad addRotation size
    StaticTexture.m_spinnerOuterTextureId w.statics.m_spinnerOuterTextureId 1 true)
  let addReverseRotation := addReverseRotation.rotate (-w.statics.m_rotateDegree)
  let addReverseRotation := addReverseRotation.translate (((-c.IMAGESIZE).tdiv 2 : Int) : Rat)
    (((-c.IMAGESIZE).tdiv 2 : Int) : Rat)
  let w := w.emit (GLEvent.drawLayerQuad addReverseRotation size
    StaticTexture.m_spinnerInnerTextureId w.statics.m_spinnerInnerTextureId 1 true)
  { w with statics := { w.statics with m_rotateDegree := w.statics.m_rotateDegree + c.ROTATESTEP } }

/-- The function `calculateInnerRectBounds` (lines 189 to 196): the answer, and `innerRect`
as the call leaves it. -/
def calculateInnerRectBounds (boundsRect innerRect : SkRect) : Bool × SkRect :=
  if boundsRect.contains innerRect then
    (true, innerRect.offset ((boundsRect.width - innerRect.width) / 2)
      ((boundsRect.height - innerRect.height) / 2))
  else
    (false, innerRect)

/-- The test of line 211 on the player state. -/
def isVideoState (s : PlayerState) : Bool :=
  s == PlayerState.PREPARED || s == PlayerState.PLAYING || s == PlayerState.BUFFERING

/-- Lines 201 to 207 of `drawGL`: the lazy allocation of the textures. -/
def drawGL_createTextures (env : Collaborators) (w : World) : World :=
  if !w.statics.m_createdTexture then
    let r := createBackgroundTexture env w
    let w := { r.2 with statics := { r.2.statics with m_backgroundTextureId := r.1 } }
    let r := createSpinnerOuterTexture env w
    let w := { r.2 with statics := { r.2.statics with m_spinnerOuterTextureId := r.1 } }
    let r := createSpinnerInnerTexture env w
    let w := { r.2 with statics := { r.2.statics with m_spinnerInnerTextureId := r.1 } }
    let r := createPosterTexture env w
    let w := { r.2 with statics := { r.2.statics with m_posterTextureId := r.1 } }
    { w with statics := { w.statics with m_createdTexture := true } }
  else
    w

/-- Lines 212 to 238 of `drawGL`: the branch that shows the real video. -/
def drawGL_video (c : Constants) (env : Collaborators) (layer : VideoLayerAndroid)
    (surface : SurfaceTexture) (rect : SkRect) (w : World) : World :=
  let w := w.emit (GLEvent.updateTexImage surface)
  let surfaceMatrix := env.getTransformMatrix surface
  let textureId := env.getTextureId layer.uniqueId
  if textureId ≠ 0 then
    let w := w.emit (GLEvent.drawVideoLayerQuad layer.m_drawTransform
      (MatrixArg.surfaceMatrix surfaceMatrix) rect textureId)
    let w :=
      if layer.m_playerState = PlayerState.BUFFERING then
        let r := calculateInnerRectBounds rect (SkRect.ofIntRect (buttonRect c))
        if r.1 then showProgressSpinner c layer r.2 w else w
      else w
    w.emit (GLEvent.updateMatrix layer.uniqueId surfaceMatrix)
  else
    w

/-- Lines 240 to 271 of `drawGL`: the branch without a live video frame. -/
def drawGL_fallback (c : Constants) (env : Collaborators) (layer : VideoLayerAndroid)
    (rect : SkRect) (w : World) : World :=
  let textureId := env.getTextureId layer.uniqueId
  let matrix := env.getMatrix layer.uniqueId
  let w :=
    match decide (textureId ≠ 0), matrix with
    | true, some m =>
      w.emit (GLEvent.drawVideoLayerQuad layer.m_drawTransform (MatrixArg.cachedMatrix m)
        rect textureId)
    | _, _ =>
      let r := calculateInnerRectBounds rect (SkRect.ofIntRect (buttonRect c))
      if r.1 then
        let w := w.emit (GLEvent.drawLayerQuad layer.m_drawTransform rect
          StaticTexture.m_backgroundTextureId w.statics.m_backgroundTextureId 1 true)
        if layer.m_playerState ≠ PlayerState.PREPARING then
          w.emit (GLEvent.drawLayerQuad layer.m_drawTransform r.2
            StaticTexture.m_posterTextureId w.statics.m_posterTextureId 1 true)
        else w
      else w
  if layer.m_playerState = PlayerState.PREPARING then
    let r := calculateInnerRectBounds rect (SkRect.ofIntRect (buttonRect c))
    if r.1 then showProgressSpinner c layer r.2 w else w
  else w

/-- Lines 274 to 277 of `drawGL`: the notification of the observer. -/
def drawGL_notify (layer : VideoLayerAndroid) (rect : SkRect) (w : World) : World :=
  match layer.m_observer with
  | some observer =>
    let size := IntSize.ofScalars rect.width rect.height
    w.emit (GLEvent.notifyRectChange observer
      (size.map (rectInScreenCoord layer.m_drawTransform)))
  | none => w

/-- The result of `drawGL`: its return value with the world it leaves. -/
structure DrawResult where
  ret : Bool
  world : World

/-- The method `drawGL` (lines 198 to 280). -/
def drawGL (c : Constants) (env : Collaborators) (layer : VideoLayerAndroid) (w : World) :
    DrawResult :=
  let w := drawGL_createTextures env w
  let rect := SkRect.MakeSize layer.getSize
  let w :=
    match isVideoState layer.m_playerState, layer.m_surfaceTexture with
    | true, some surface => drawGL_video c env layer surface rect w
    | _, _ => drawGL_fallback c env layer rect w
  let w := drawGL_notify layer rect w
  let w := w.emit GLEvent.drawChildrenGL
  { ret := env.drawChildrenGL, world := w }

/-- The calls made by one render pass that starts from the statics `s`. -/
def drawGL_events (c : Constants) (env : Collaborators) (layer : VideoLayerAndroid)
    (s : VideoLayerStatics) : List GLEvent :=
  (drawGL c env layer ⟨s, []⟩).world.trace

/-- The static members after one render pass that starts from the statics `s`. -/
def drawGL_statics (c : Constants) (env : Collaborators) (layer : VideoLayerAndroid)
    (s : VideoLayerStatics) : VideoLayerStatics :=
  (drawGL c env layer ⟨s, []⟩).world.statics


/-! ## Vocabulary for statements about a render pass -/

namespace GLEvent

/-- A video quad drawn with the matrix of the live frame. -/
def isLiveVideoQuad : GLEvent → Bool
  | drawVideoLayerQuad _ (MatrixArg.surfaceMatrix _) _ _ => true
  | _ => false

/-- A video quad drawn with the matrix kept by the video layer manager: the screenshot. -/
def isScreenshotQuad : GLEvent → Bool
  | drawVideoLayerQuad _ (MatrixArg.cachedMatrix _) _ _ => true
  | _ => false

/-- Any `drawVideoLayerQuad` call. -/
def isVideoQuad : GLEvent → Bool
  | drawVideoLayerQuad _ _ _ _ => true
  | _ => false

/-- A `drawLayerQuad` call with `m_backgroundTextureId`: the background plate. -/
def isBackgroundQuad : GLEvent → Bool
  | drawLayerQuad _ _ StaticTexture.m_backgroundTextureId _ _ _ => true
  | _ => false

/-- A `drawLayerQuad` call with `m_posterTextureId`: the poster icon. -/
def isPosterQuad : GLEvent → Bool
  | drawLayerQuad _ _ StaticTexture.m_posterTextureId _ _ _ => true
  | _ => false

/-- A `drawLayerQuad` call with `m_spinnerOuterTextureId`: the outer ring. -/
def isSpinnerOuterQuad : GLEvent → Bool
  | drawLayerQuad _ _ StaticTexture.m_spinnerOuterTextureId _ _ _ => true
  | _ => false

/-- A `drawLayerQuad` call with `m_spinnerInnerTextureId`: the inner ring. -/
def isSpinnerInnerQuad : GLEvent → Bool
  | drawLayerQuad _ _ StaticTexture.m_spinnerInnerTextureId _ _ _ => true
  | _ => false

/-- One of the two ring quads of the spinner. -/
def isSpinnerQuad (e : GLEvent) : Bool := e.isSpinnerOuterQuad || e.isSpinnerInnerQuad

/-- Any quad drawn through the shader. -/
def isQuad : GLEvent → Bool
  | drawVideoLayerQuad _ _ _ _ => true
  | drawLayerQuad _ _ _ _ _ _ => true
  | _ => false

/-- The three quads that fill the body of the layer: live video, screenshot, background plate. -/
def isBodyQuad (e : GLEvent) : Bool :=
  e.isLiveVideoQuad || e.isScreenshotQuad || e.isBackgroundQuad

/-- A `VideoLayerManager::updateMatrix` call. -/
def isUpdateMatrix : GLEvent → Bool
  | updateMatrix _ _ => true
  | _ => false

/-- A `SurfaceTexture::updateTexImage` call. -/
def isUpdateTexImage : GLEvent → Bool
  | updateTexImage _ => true
  | _ => false

/-- A `notifyRectChange` call. -/
def isNotify : GLEvent → Bool
  | notifyRectChange _ _ => true
  | _ => false

end GLEvent

/-- The bounds `rect` of line 209. -/
def layerRect (layer : VideoLayerAndroid) : SkRect := SkRect.MakeSize layer.getSize

/-- Whether `calculateInnerRectBounds` accepts `buttonRect` inside the bounds of the layer. -/
def iconFits (c : Constants) (layer : VideoLayerAndroid) : Bool :=
  (calculateInnerRectBounds (layerRect layer) (SkRect.ofIntRect (buttonRect c))).1

/-- The icon rect as `calculateInnerRectBounds` leaves it for the layer. -/
def iconRect (c : Constants) (layer : VideoLayerAndroid) : SkRect :=
  (calculateInnerRectBounds (layerRect layer) (SkRect.ofIntRect (buttonRect c))).2

/-- The condition of line 211: a video state and a surface texture. -/
def liveCondition (layer : VideoLayerAndroid) : Prop :=
  (layer.m_playerState = PlayerState.PREPARED ∨ layer.m_playerState = PlayerState.PLAYING ∨
      layer.m_playerState = PlayerState.BUFFERING) ∧
    layer.m_surfaceTexture ≠ none

/-- The condition of line 244: the manager holds a texture id and a matrix for the layer. -/
def cacheComplete (env : Collaborators) (layer : VideoLayerAndroid) : Prop :=
  env.getTextureId layer.uniqueId ≠ 0 ∧ env.getMatrix layer.uniqueId ≠ none

/-- One call on a node, as the media player and the page can issue them between passes. -/
inductive NodeCall
  | registerVideoLayerObserver (observer : Option ObserverPtr)
  | setPlayerState (state : PlayerState)
  | setSurfaceTexture (texture : Option SurfaceTexture) (textureName : Int)
      (playerState : PlayerState)

/-- Run one call on a node. -/
def NodeCall.run (call : NodeCall) (p : VideoLayerAndroid × RefCounts) :
    VideoLayerAndroid × RefCounts :=
  match call with
  | NodeCall.registerVideoLayerObserver observer => p.1.registerVideoLayerObserver observer p.2
  | NodeCall.setPlayerState state => (p.1.setPlayerState state, p.2)
  | NodeCall.setSurfaceTexture texture textureName playerState =>
    (p.1.setSurfaceTexture texture textureName playerState, p.2)

/-- Run a sequence of calls on a node, first call first. -/
def runCalls (calls : List NodeCall) (p : VideoLayerAndroid × RefCounts) :
    VideoLayerAndroid × RefCounts :=
  calls.foldl (fun q call => call.run q) p

/-- The node holds one reference on its current observer and none on any other object:
`rc0` are the counts before the node took any reference. -/
def holdsOneReference (rc0 : RefCounts) (p : VideoLayerAndroid × RefCounts) : Prop :=
  ∀ x : ObserverPtr, p.2 x - rc0 x = if p.1.m_observer = some x then 1 else 0

/-- A texture creation call, `createBackgroundTexture` or `createTextureFromImage`. -/
def GLEvent.isCreateTexture : GLEvent → Bool
  | GLEvent.createBackgroundTexture _ => true
  | GLEvent.createTextureFromImage _ _ => true
  | _ => false

/-- The angle of the `rotate` call in the transform of a spinner quad: the transform of such a
quad ends with a `rotate` followed by one `translate`. -/
def GLEvent.rotateDegree : GLEvent → Option Rat
  | GLEvent.drawLayerQuad (TransformationMatrix.translate (TransformationMatrix.rotate _ degrees) _ _)
      _ _ _ _ _ => some degrees
  | _ => none

/-- The value of a static texture member. -/
def VideoLayerStatics.textureOf (s : VideoLayerStatics) : StaticTexture → Nat
  | StaticTexture.m_spinnerOuterTextureId => s.m_spinnerOuterTextureId
  | StaticTexture.m_spinnerInnerTextureId => s.m_spinnerInnerTextureId
  | StaticTexture.m_posterTextureId => s.m_posterTextureId
  | StaticTexture.m_backgroundTextureId => s.m_backgroundTextureId

/-- The name `glGenTextures` hands out for a static texture member. -/
def Collaborators.genTexture (env : Collaborators) : StaticTexture → Nat
  | StaticTexture.m_spinnerOuterTextureId => env.genImageTexture MediaButton.SPINNER_OUTER
  | StaticTexture.m_spinnerInnerTextureId => env.genImageTexture MediaButton.SPINNER_INNER
  | StaticTexture.m_posterTextureId => env.genImageTexture MediaButton.VIDEO
  | StaticTexture.m_backgroundTextureId => env.genBackgroundTexture

/-- The four creation calls of lines 202 to 205, in program order. -/
def creationCalls (env : Collaborators) : List GLEvent :=
  [GLEvent.createBackgroundTexture env.genBackgroundTexture,
    GLEvent.createTextureFromImage MediaButton.SPINNER_OUTER
      (env.genImageTexture MediaButton.SPINNER_OUTER),
    GLEvent.createTextureFromImage MediaButton.SPINNER_INNER
      (env.genImageTexture MediaButton.SPINNER_INNER),
    GLEvent.createTextureFromImage MediaButton.VIDEO (env.genImageTexture MediaButton.VIDEO)]

/-- A `drawLayerQuad` call passes the value that the statics `s` hold for its member; every
other call passes no static texture. -/
def GLEvent.readsFrom (s : VideoLayerStatics) : GLEvent → Prop
  | GLEvent.drawLayerQuad _ _ member textureId _ _ => textureId = s.textureOf member
  | _ => True

/-- The condition under which a pass reaches a `showProgressSpinner` call: lines 219 to 227
(BUFFERING, a surface texture, a texture id) or lines 265 to 269 (PREPARING), and the icon
rect accepted by `calculateInnerRectBounds`. -/
def spinnerCondition (c : Constants) (env : Collaborators) (layer : VideoLayerAndroid) : Prop :=
  iconFits c layer = true ∧
    ((layer.m_playerState = PlayerState.BUFFERING ∧ layer.m_surfaceTexture ≠ none ∧
        env.getTextureId layer.uniqueId ≠ 0) ∨
      layer.m_playerState = PlayerState.PREPARING)

/-- Render passes run one after the other on the rendering thread, each with what the
collaborators answer during it; the statics and the trace are carried along. -/
def drawGL_passes (c : Constants) :
    List (Collaborators × VideoLayerAndroid) → World → World
  | [], w => w
  | pass :: rest, w => drawGL_passes c rest (drawGL c pass.1 pass.2 w).world

/-! ## Example inputs -/

/-- The values of the two macros in the Android tree. -/
def exampleConstants : Constants := ⟨64, 12⟩

/-- A manager that holds nothing for any layer. -/
def emptyCache : Collaborators :=
  { getTextureId := fun _ => 0
    getMatrix := fun _ => none
    getTransformMatrix := fun _ => [1, 0, 0, 0, 0, 1, 0, 0, 0, 0, 1, 0, 0, 0, 0, 1]
    genBackgroundTexture := 1
    genImageTexture := fun b =>
      match b with
      | MediaButton.SPINNER_OUTER => 2
      | MediaButton.SPINNER_INNER => 3
      | MediaButton.VIDEO => 4
    drawChildrenGL := false }

/-- A manager that holds texture 9 and a matrix for every layer. -/
def fullCache : Collaborators :=
  { emptyCache with
    getTextureId := fun _ => 9
    getMatrix := fun _ => some [2, 0, 0, 0, 0, 2, 0, 0, 0, 0, 1, 0, 0, 0, 0, 1] }

/-- A layer of the given size and state, with surface texture 7 and observer 3. -/
def exampleLayer (width height : Rat) (state : PlayerState) : VideoLayerAndroid :=
  { m_uniqueId := 1
    m_drawTransform := TransformationMatrix.given 0
    m_size := ⟨width, height⟩
    m_playerState := state
    m_surfaceTexture := some 7
    m_observer := some 3 }

/-! ## Shared lemmas -/

/-- The test of line 211 on the player state, spelled out. -/
theorem isVideoState_eq_true_iff (st : PlayerState) :
    isVideoState st = true ↔
      (st = PlayerState.PREPARED ∨ st = PlayerState.PLAYING ∨ st = PlayerState.BUFFERING) := by
  cases st <;> simp [isVideoState]

/-- A pass whose layer meets the condition of line 211 runs the video branch. -/
theorem drawGL_world_of_live (c : Constants) (env : Collaborators) (layer : VideoLayerAndroid)
    (w : World) (surface : SurfaceTexture)
    (hstate : layer.m_playerState = PlayerState.PREPARED ∨
      layer.m_playerState = PlayerState.PLAYING ∨ layer.m_playerState = PlayerState.BUFFERING)
    (hsurf : layer.m_surfaceTexture = some surface) :
    (drawGL c env layer w).world =
      (drawGL_notify layer (layerRect layer)
        (drawGL_video c env layer surface (layerRect layer)
          (drawGL_createTextures env w))).emit GLEvent.drawChildrenGL := by
  have h := (isVideoState_eq_true_iff layer.m_playerState).2 hstate
  simp [drawGL, h, hsurf, layerRect]

/-- A pass whose layer fails the condition of line 211 runs the fallback branch. -/
theorem drawGL_world_of_not_live (c : Constants) (env : Collaborators)
    (layer : VideoLayerAndroid) (w : World) (hlive : ¬ liveCondition layer) :
    (drawGL c env layer w).world =
      (drawGL_notify layer (layerRect layer)
        (drawGL_fallback c env layer (layerRect layer)
          (drawGL_createTextures env w))).emit GLEvent.drawChildrenGL := by
  unfold drawGL
  simp only [layerRect]
  split
  · rename_i h1 h2
    exact absurd ⟨(isVideoState_eq_true_iff _).1 h1, by simp [h2]⟩ hlive
  · rfl

/-- The lazy allocation in closed form. -/
theorem drawGL_createTextures_eq (env : Collaborators) (w : World) :
    drawGL_createTextures env w =
      if w.statics.m_createdTexture = true then w
      else
        { statics :=
            { m_spinnerOuterTextureId := env.genImageTexture MediaButton.SPINNER_OUTER
              m_spinnerInnerTextureId := env.genImageTexture MediaButton.SPINNER_INNER
              m_posterTextureId := env.genImageTexture MediaButton.VIDEO
              m_backgroundTextureId := env.genBackgroundTexture
              m_createdTexture := true
              m_rotateDegree := w.statics.m_rotateDegree }
          trace := w.trace ++
            [GLEvent.createBackgroundTexture env.genBackgroundTexture,
              GLEvent.createTextureFromImage MediaButton.SPINNER_OUTER
                (env.genImageTexture MediaButton.SPINNER_OUTER),
              GLEvent.createTextureFromImage MediaButton.SPINNER_INNER
                (env.genImageTexture MediaButton.SPINNER_INNER),
              GLEvent.createTextureFromImage MediaButton.VIDEO
                (env.genImageTexture MediaButton.VIDEO)] } := by
  cases h : w.statics.m_createdTexture <;>
  simp [drawGL_createTextures, h, World.emit, createBackgroundTexture, createSpinnerOuterTexture,
    createSpinnerInnerTexture, createPosterTexture, createTextureFromImage]

/-- A layer narrower or lower than the icon never passes `calculateInnerRectBounds`. -/
theorem iconFits_eq_false (c : Constants) (layer : VideoLayerAndroid)
    (h : layer.m_size.fWidth < (c.IMAGESIZE : Rat) ∨ layer.m_size.fHeight < (c.IMAGESIZE : Rat)) :
    iconFits c layer = false := by
  simp only [iconFits, calculateInnerRectBounds, layerRect, SkRect.MakeSize, SkRect.ofIntRect,
    buttonRect, VideoLayerAndroid.getSize, SkRect.contains]
  split
  · rename_i hc
    simp at hc
    rcases h with h | h <;> linarith [hc.1.2, hc.2]
  · rfl

/-- A PREPARING layer fails the condition of line 211. -/
theorem not_live_of_preparing (layer : VideoLayerAndroid)
    (hp : layer.m_playerState = PlayerState.PREPARING) : ¬ liveCondition layer := by
  simp [liveCondition, hp]

/-- The condition of line 211 holds with some surface texture, or fails. -/
theorem liveCondition_cases (layer : VideoLayerAndroid) :
    (∃ surface, (layer.m_playerState = PlayerState.PREPARED ∨
        layer.m_playerState = PlayerState.PLAYING ∨
        layer.m_playerState = PlayerState.BUFFERING) ∧
      layer.m_surfaceTexture = some surface) ∨ ¬ liveCondition layer := by
  by_cases h : liveCondition layer
  · left
    rcases h with ⟨h1, h2⟩
    cases hs : layer.m_surfaceTexture with
    | none => exact absurd hs h2
    | some v => exact ⟨v, h1, rfl⟩
  · exact Or.inr h

/-- The counts after `registerVideoLayerObserver`, object by object. -/
theorem registerVideoLayerObserver_counts (layer : VideoLayerAndroid)
    (observer : Option ObserverPtr) (rc : RefCounts) (x : ObserverPtr) :
    (layer.registerVideoLayerObserver observer rc).2 x =
      rc x + (if observer = some x then 1 else 0) -
        (if layer.m_observer = some x then 1 else 0) := by
  unfold VideoLayerAndroid.registerVideoLayerObserver
  cases hp : layer.m_observer with
  | none =>
    cases observer with
    | none => simp
    | some o =>
      simp only [SkRefCnt_SafeAssign, RefCounts.ref]
      by_cases hx : x = o
      · simp [hx, RefCounts.ref, RefCounts.unref]
      · have hx2 : o ≠ x := fun h => hx h.symm
        simp [hx, hx2, RefCounts.ref, RefCounts.unref]
  | some p =>
    cases observer with
    | none =>
      simp only [SkRefCnt_SafeAssign, RefCounts.unref]
      by_cases hx : x = p
      · simp [hx, RefCounts.ref, RefCounts.unref]
      · have hx2 : p ≠ x := fun h => hx h.symm
        simp [hx, hx2, RefCounts.ref, RefCounts.unref]
    | some o =>
      simp only [SkRefCnt_SafeAssign, RefCounts.unref, RefCounts.ref]
      by_cases hop : p = o
      · simp [hop]
      · have hop2 : ¬ o = p := fun h => hop h.symm
        by_cases hx : x = o <;> by_cases hy : x = p
        · exact absurd (hy.symm.trans hx) hop
        · have hy2 : p ≠ x := fun h => hy h.symm
          simp [hop, hop2, hx, hy, hy2, RefCounts.ref, RefCounts.unref]
        · have hx2 : o ≠ x := fun h => hx h.symm
          simp [hop, hop2, hx, hy, hx2, RefCounts.ref, RefCounts.unref]
        · have hx2 : o ≠ x := fun h => hx h.symm
          have hy2 : p ≠ x := fun h => hy h.symm
          simp [hop, hx, hy, hx2, hy2, RefCounts.ref, RefCounts.unref]

/-- The observer a node holds after `registerVideoLayerObserver`. -/
theorem registerVideoLayerObserver_observer (layer : VideoLayerAndroid)
    (observer : Option ObserverPtr) (rc : RefCounts) :
    (layer.registerVideoLayerObserver observer rc).1.m_observer = observer := by
  unfold VideoLayerAndroid.registerVideoLayerObserver
  by_cases h : layer.m_observer = observer <;> simp [h, SkRefCnt_SafeAssign]

/-- Every call on a node keeps `holdsOneReference`. -/
theorem run_holdsOneReference (rc0 : RefCounts) (call : NodeCall)
    (p : VideoLayerAndroid × RefCounts) (h : holdsOneReference rc0 p) :
    holdsOneReference rc0 (call.run p) := by
  intro x
  have hx := h x
  cases call with
  | registerVideoLayerObserver observer =>
    have hc := registerVideoLayerObserver_counts p.1 observer p.2 x
    have hobs := registerVideoLayerObserver_observer p.1 observer p.2
    simp only [NodeCall.run, hobs, hc]
    split_ifs at hx ⊢ <;> omega
  | setPlayerState state => simpa [NodeCall.run, VideoLayerAndroid.setPlayerState] using hx
  | setSurfaceTexture t n st =>
    simpa [NodeCall.run, VideoLayerAndroid.setSurfaceTexture] using hx

/-- Every sequence of calls on a node keeps `holdsOneReference`. -/
theorem runCalls_holdsOneReference (rc0 : RefCounts) (calls : List NodeCall)
    (p : VideoLayerAndroid × RefCounts) (h : holdsOneReference rc0 p) :
    holdsOneReference rc0 (runCalls calls p) := by
  induction calls generalizing p with
  | nil => exact h
  | cons call rest ih => exact ih _ (run_holdsOneReference rc0 call p h)

/-! ## The render pass: which body is drawn -/

/-- C1, as the spec states it, fails: in a pass over a PLAYING layer with a surface texture
whose texture id the manager answers as 0, no `updateMatrix` call is made. -/
theorem drawGL_lost_texture_counterexample :
    (exampleLayer 100 100 PlayerState.PLAYING).m_playerState = PlayerState.PLAYING ∧
    (exampleLayer 100 100 PlayerState.PLAYING).m_surfaceTexture = some 7 ∧
    emptyCache.getTextureId (exampleLayer 100 100 PlayerState.PLAYING).uniqueId = 0 ∧
    GLEvent.updateMatrix (exampleLayer 100 100 PlayerState.PLAYING).uniqueId
        (emptyCache.getTransformMatrix 7) ∉
      drawGL_events exampleConstants emptyCache (exampleLayer 100 100 PlayerState.PLAYING)
        VideoLayerStatics.initial ∧
    (drawGL_events exampleConstants emptyCache (exampleLayer 100 100 PlayerState.PLAYING)
        VideoLayerStatics.initial).filter GLEvent.isUpdateMatrix = [] := by
  decide

/-- C1, amended: in a pass with state PREPARED, PLAYING or BUFFERING and a surface texture
attached, when the manager answers texture id 0 for the layer, no quad at all is drawn and
no `updateMatrix` call is made. -/
theorem drawGL_lost_texture (c : Constants) (env : Collaborators) (layer : VideoLayerAndroid)
    (s : VideoLayerStatics) (surface : SurfaceTexture)
    (hstate : layer.m_playerState = PlayerState.PREPARED ∨
      layer.m_playerState = PlayerState.PLAYING ∨ layer.m_playerState = PlayerState.BUFFERING)
    (hsurf : layer.m_surfaceTexture = some surface)
    (htex : env.getTextureId layer.uniqueId = 0) :
    (drawGL_events c env layer s).filter GLEvent.isQuad = [] ∧
    (drawGL_events c env layer s).filter GLEvent.isUpdateMatrix = [] := by
  constructor <;>
  · rw [drawGL_events, drawGL_world_of_live c env layer _ surface hstate hsurf,
      drawGL_createTextures_eq]
    cases hc : s.m_createdTexture <;>
    cases ho : layer.m_observer <;>
    simp [drawGL_video, drawGL_notify, htex, hc, ho, World.emit, GLEvent.isQuad,
      GLEvent.isUpdateMatrix]

/-- The amended C1 at a BUFFERING layer whose texture the manager has freed. -/
theorem drawGL_lost_texture_witness :
    (drawGL_events exampleConstants emptyCache (exampleLayer 100 100 PlayerState.BUFFERING)
        VideoLayerStatics.initial).filter GLEvent.isQuad = [] ∧
    (drawGL_events exampleConstants emptyCache (exampleLayer 100 100 PlayerState.BUFFERING)
        VideoLayerStatics.initial).filter GLEvent.isUpdateMatrix = [] :=
  drawGL_lost_texture exampleConstants emptyCache (exampleLayer 100 100 PlayerState.BUFFERING)
    VideoLayerStatics.initial 7 (Or.inr (Or.inr rfl)) rfl rfl

/-- C2: in a pass with state PREPARED, PLAYING or BUFFERING, a surface texture attached and a
non-zero texture id from the manager, the pass calls `updateTexImage`, then draws one video
quad over the layer bounds with the draw transform, the matrix of the live frame and that
texture id, then calls `updateMatrix` with that matrix; these are the only such calls, and
neither a screenshot quad nor the background plate nor the poster icon is drawn, whatever
`getMatrix` answers. -/
theorem drawGL_live_video (c : Constants) (env : Collaborators) (layer : VideoLayerAndroid)
    (s : VideoLayerStatics) (surface : SurfaceTexture)
    (hstate : layer.m_playerState = PlayerState.PREPARED ∨
      layer.m_playerState = PlayerState.PLAYING ∨ layer.m_playerState = PlayerState.BUFFERING)
    (hsurf : layer.m_surfaceTexture = some surface)
    (htex : env.getTextureId layer.uniqueId ≠ 0) :
    (drawGL_events c env layer s).filter
        (fun e => e.isUpdateTexImage || e.isVideoQuad || e.isUpdateMatrix) =
      [GLEvent.updateTexImage surface,
        GLEvent.drawVideoLayerQuad layer.m_drawTransform
          (MatrixArg.surfaceMatrix (env.getTransformMatrix surface)) (layerRect layer)
          (env.getTextureId layer.uniqueId),
        GLEvent.updateMatrix layer.uniqueId (env.getTransformMatrix surface)] ∧
    (drawGL_events c env layer s).filter
        (fun e => e.isScreenshotQuad || e.isBackgroundQuad || e.isPosterQuad) = [] := by
  constructor <;>
  · rw [drawGL_events, drawGL_world_of_live c env layer _ surface hstate hsurf,
      drawGL_createTextures_eq]
    cases hc : s.m_createdTexture <;>
    cases ho : layer.m_observer <;>
    by_cases hb : layer.m_playerState = PlayerState.BUFFERING <;>
    cases hf : (calculateInnerRectBounds (layerRect layer)
      (SkRect.ofIntRect (buttonRect c))).1 <;>
    simp [drawGL_video, drawGL_notify, htex, hc, ho, hb, hf, World.emit, showProgressSpinner,
      GLEvent.isUpdateTexImage, GLEvent.isVideoQuad, GLEvent.isUpdateMatrix,
      GLEvent.isScreenshotQuad, GLEvent.isBackgroundQuad, GLEvent.isPosterQuad]

/-- C2 at a PLAYING layer of 100 by 100 whose manager holds texture 9 and a stored matrix. -/
theorem drawGL_live_video_witness :
    (drawGL_events exampleConstants fullCache (exampleLayer 100 100 PlayerState.PLAYING)
        VideoLayerStatics.initial).filter
        (fun e => e.isUpdateTexImage || e.isVideoQuad || e.isUpdateMatrix) =
      [GLEvent.updateTexImage 7,
        GLEvent.drawVideoLayerQuad (TransformationMatrix.given 0)
          (MatrixArg.surfaceMatrix [1, 0, 0, 0, 0, 1, 0, 0, 0, 0, 1, 0, 0, 0, 0, 1])
          ⟨0, 0, 100, 100⟩ 9,
        GLEvent.updateMatrix 1 [1, 0, 0, 0, 0, 1, 0, 0, 0, 0, 1, 0, 0, 0, 0, 1]] ∧
    (drawGL_events exampleConstants fullCache (exampleLayer 100 100 PlayerState.PLAYING)
        VideoLayerStatics.initial).filter
        (fun e => e.isScreenshotQuad || e.isBackgroundQuad || e.isPosterQuad) = [] :=
  drawGL_live_video exampleConstants fullCache (exampleLayer 100 100 PlayerState.PLAYING)
    VideoLayerStatics.initial 7 (Or.inr (Or.inl rfl)) rfl (by decide)

/-- C3: in a pass whose state is not PREPARED, PLAYING or BUFFERING, or that has no surface
texture, while the manager holds a non-zero texture id and a matrix for the layer, the only
quad among video quads, background plate and poster icon is one video quad over the layer
bounds with the cached texture id and the cached matrix; the pass calls neither
`updateTexImage` nor `updateMatrix`. -/
theorem drawGL_screenshot (c : Constants) (env : Collaborators) (layer : VideoLayerAndroid)
    (s : VideoLayerStatics) (m : GLMatrix)
    (hlive : ¬ liveCondition layer)
    (htex : env.getTextureId layer.uniqueId ≠ 0)
    (hmat : env.getMatrix layer.uniqueId = some m) :
    (drawGL_events c env layer s).filter
        (fun e => e.isVideoQuad || e.isBackgroundQuad || e.isPosterQuad) =
      [GLEvent.drawVideoLayerQuad layer.m_drawTransform (MatrixArg.cachedMatrix m)
        (layerRect layer) (env.getTextureId layer.uniqueId)] ∧
    (drawGL_events c env layer s).filter
        (fun e => e.isUpdateTexImage || e.isUpdateMatrix) = [] := by
  constructor <;>
  · rw [drawGL_events, drawGL_world_of_not_live c env layer _ hlive, drawGL_createTextures_eq]
    cases hc : s.m_createdTexture <;>
    cases ho : layer.m_observer <;>
    by_cases hp : layer.m_playerState = PlayerState.PREPARING <;>
    cases hf : (calculateInnerRectBounds (layerRect layer)
      (SkRect.ofIntRect (buttonRect c))).1 <;>
    simp [drawGL_fallback, drawGL_notify, htex, hmat, hc, ho, hp, hf, World.emit,
      showProgressSpinner, GLEvent.isUpdateTexImage, GLEvent.isVideoQuad,
      GLEvent.isUpdateMatrix, GLEvent.isBackgroundQuad, GLEvent.isPosterQuad]

/-- C3 at an INITIALIZED layer of 100 by 100 that still has its surface texture. -/
theorem drawGL_screenshot_witness :
    (drawGL_events exampleConstants fullCache (exampleLayer 100 100 PlayerState.INITIALIZED)
        VideoLayerStatics.initial).filter
        (fun e => e.isVideoQuad || e.isBackgroundQuad || e.isPosterQuad) =
      [GLEvent.drawVideoLayerQuad (TransformationMatrix.given 0)
        (MatrixArg.cachedMatrix [2, 0, 0, 0, 0, 2, 0, 0, 0, 0, 1, 0, 0, 0, 0, 1])
        ⟨0, 0, 100, 100⟩ 9] ∧
    (drawGL_events exampleConstants fullCache (exampleLayer 100 100 PlayerState.INITIALIZED)
        VideoLayerStatics.initial).filter
        (fun e => e.isUpdateTexImage || e.isUpdateMatrix) = [] :=
  drawGL_screenshot exampleConstants fullCache (exampleLayer 100 100 PlayerState.INITIALIZED)
    VideoLayerStatics.initial [2, 0, 0, 0, 0, 2, 0, 0, 0, 0, 1, 0, 0, 0, 0, 1]
    (by simp [liveCondition, exampleLayer]) (by decide) rfl

/-- C4: in a pass that fails the condition of line 211 and for which the manager does not hold
both a texture id and a matrix: when the icon rect fits the layer bounds, the first quad of
the pass is the background plate over the layer bounds, and the poster icon follows it at the
centered icon rect exactly when the state is not PREPARING; when the icon rect does not fit,
neither the background plate nor the poster icon is drawn. -/
theorem drawGL_poster (c : Constants) (env : Collaborators) (layer : VideoLayerAndroid)
    (s : VideoLayerStatics)
    (hlive : ¬ liveCondition layer) (hcache : ¬ cacheComplete env layer) :
    (iconFits c layer = true →
      ((drawGL_events c env layer s).filter GLEvent.isQuad).head? =
        some (GLEvent.drawLayerQuad layer.m_drawTransform (layerRect layer)
          StaticTexture.m_backgroundTextureId
          (drawGL_statics c env layer s).m_backgroundTextureId 1 true) ∧
      (drawGL_events c env layer s).filter (fun e => e.isBackgroundQuad || e.isPosterQuad) =
        GLEvent.drawLayerQuad layer.m_drawTransform (layerRect layer)
            StaticTexture.m_backgroundTextureId
            (drawGL_statics c env layer s).m_backgroundTextureId 1 true ::
          (if layer.m_playerState = PlayerState.PREPARING then []
            else [GLEvent.drawLayerQuad layer.m_drawTransform (iconRect c layer)
              StaticTexture.m_posterTextureId
              (drawGL_statics c env layer s).m_posterTextureId 1 true])) ∧
    (iconFits c layer = false →
      (drawGL_events c env layer s).filter
        (fun e => e.isBackgroundQuad || e.isPosterQuad) = []) := by
  have hcases : env.getTextureId layer.uniqueId = 0 ∨ env.getMatrix layer.uniqueId = none := by
    by_cases h : env.getTextureId layer.uniqueId = 0
    · exact Or.inl h
    · right
      by_contra h2
      exact hcache ⟨h, h2⟩
  rw [drawGL_events, drawGL_statics, drawGL_world_of_not_live c env layer _ hlive,
    drawGL_createTextures_eq]
  simp only [iconFits, iconRect]
  refine ⟨fun hf => ?_, fun hf => ?_⟩ <;>
  rcases hcases with h0 | h0 <;>
  cases hc : s.m_createdTexture <;>
  cases ho : layer.m_observer <;>
  by_cases hp : layer.m_playerState = PlayerState.PREPARING <;>
  simp [drawGL_fallback, drawGL_notify, h0, hc, ho, hp, hf, World.emit,
    showProgressSpinner, GLEvent.isQuad, GLEvent.isBackgroundQuad, GLEvent.isPosterQuad]

/-- C4 at an INITIALIZED layer of 100 by 100 with nothing in the manager: the background plate
with texture 1, then the poster icon with texture 4. -/
theorem drawGL_poster_witness :
    ((drawGL_events exampleConstants emptyCache (exampleLayer 100 100 PlayerState.INITIALIZED)
        VideoLayerStatics.initial).filter GLEvent.isQuad).head? =
      some (GLEvent.drawLayerQuad (TransformationMatrix.given 0) ⟨0, 0, 100, 100⟩
        StaticTexture.m_backgroundTextureId 1 1 true) ∧
    (drawGL_events exampleConstants emptyCache (exampleLayer 100 100 PlayerState.INITIALIZED)
        VideoLayerStatics.initial).filter (fun e => e.isBackgroundQuad || e.isPosterQuad) =
      [GLEvent.drawLayerQuad (TransformationMatrix.given 0) ⟨0, 0, 100, 100⟩
          StaticTexture.m_backgroundTextureId 1 1 true,
        GLEvent.drawLayerQuad (TransformationMatrix.given 0)
          (iconRect exampleConstants (exampleLayer 100 100 PlayerState.INITIALIZED))
          StaticTexture.m_posterTextureId 4 1 true] :=
  (drawGL_poster exampleConstants emptyCache (exampleLayer 100 100 PlayerState.INITIALIZED)
    VideoLayerStatics.initial (by simp [liveCondition, exampleLayer])
    (by simp [cacheComplete, emptyCache])).1 (by decide)

/-- C5: in a pass over a PREPARING layer the poster icon is never drawn; when the icon rect
fits the layer bounds the spinner is drawn, the outer ring then the inner ring, and when it
does not fit no spinner quad is drawn; all this whatever the surface texture and the manager
hold, so also in a pass that draws the screenshot. -/
theorem drawGL_preparing (c : Constants) (env : Collaborators) (layer : VideoLayerAndroid)
    (s : VideoLayerStatics) (hp : layer.m_playerState = PlayerState.PREPARING) :
    (drawGL_events c env layer s).filter GLEvent.isPosterQuad = [] ∧
    (iconFits c layer = true →
      ∃ outer inner, outer.isSpinnerOuterQuad = true ∧ inner.isSpinnerInnerQuad = true ∧
        (drawGL_events c env layer s).filter GLEvent.isSpinnerQuad = [outer, inner]) ∧
    (iconFits c layer = false →
      (drawGL_events c env layer s).filter GLEvent.isSpinnerQuad = []) := by
  rw [drawGL_events, drawGL_world_of_not_live c env layer _ (not_live_of_preparing layer hp),
    drawGL_createTextures_eq]
  simp only [iconFits]
  refine ⟨?_, fun hf => ?_, fun hf => ?_⟩
  · cases hf : (calculateInnerRectBounds (layerRect layer)
      (SkRect.ofIntRect (buttonRect c))).1 <;>
    by_cases h0 : env.getTextureId layer.uniqueId = 0 <;>
    cases hm : env.getMatrix layer.uniqueId <;>
    cases hc : s.m_createdTexture <;>
    cases ho : layer.m_observer <;>
    simp [drawGL_fallback, drawGL_notify, h0, hm, hc, ho, hp, hf, World.emit,
      showProgressSpinner, GLEvent.isPosterQuad]
  · by_cases h0 : env.getTextureId layer.uniqueId = 0 <;>
    cases hm : env.getMatrix layer.uniqueId <;>
    cases hc : s.m_createdTexture <;>
    cases ho : layer.m_observer <;>
    simp [drawGL_fallback, drawGL_notify, h0, hm, hc, ho, hp, hf, World.emit,
      showProgressSpinner, GLEvent.isSpinnerQuad, GLEvent.isSpinnerOuterQuad,
      GLEvent.isSpinnerInnerQuad]
  · by_cases h0 : env.getTextureId layer.uniqueId = 0 <;>
    cases hm : env.getMatrix layer.uniqueId <;>
    cases hc : s.m_createdTexture <;>
    cases ho : layer.m_observer <;>
    simp [drawGL_fallback, drawGL_notify, h0, hm, hc, ho, hp, hf, World.emit,
      showProgressSpinner, GLEvent.isSpinnerQuad, GLEvent.isSpinnerOuterQuad,
      GLEvent.isSpinnerInnerQuad]

/-- C5 at a PREPARING layer of 100 by 100 whose pass draws the screenshot: one screenshot quad,
no poster icon, and the two ring quads. -/
theorem drawGL_preparing_witness :
    ((drawGL_events exampleConstants fullCache (exampleLayer 100 100 PlayerState.PREPARING)
        VideoLayerStatics.initial).filter GLEvent.isScreenshotQuad).length = 1 ∧
    (drawGL_events exampleConstants fullCache (exampleLayer 100 100 PlayerState.PREPARING)
        VideoLayerStatics.initial).filter GLEvent.isPosterQuad = [] ∧
    ∃ outer inner, outer.isSpinnerOuterQuad = true ∧ inner.isSpinnerInnerQuad = true ∧
      (drawGL_events exampleConstants fullCache (exampleLayer 100 100 PlayerState.PREPARING)
        VideoLayerStatics.initial).filter GLEvent.isSpinnerQuad = [outer, inner] :=
  ⟨by decide,
    (drawGL_preparing exampleConstants fullCache (exampleLayer 100 100 PlayerState.PREPARING)
      VideoLayerStatics.initial rfl).1,
    (drawGL_preparing exampleConstants fullCache (exampleLayer 100 100 PlayerState.PREPARING)
      VideoLayerStatics.initial rfl).2.1 (by decide)⟩

/-- C6: when the layer is narrower or lower than `IMAGESIZE`, a pass draws neither the poster
icon nor a spinner quad and leaves `m_rotateDegree` as it was, whatever the state, the
surface texture and the manager hold. -/
theorem drawGL_small_layer (c : Constants) (env : Collaborators) (layer : VideoLayerAndroid)
    (s : VideoLayerStatics)
    (hsmall : layer.getSize.fWidth < (c.IMAGESIZE : Rat) ∨
      layer.getSize.fHeight < (c.IMAGESIZE : Rat)) :
    (drawGL_events c env layer s).filter (fun e => e.isPosterQuad || e.isSpinnerQuad) = [] ∧
    (drawGL_statics c env layer s).m_rotateDegree = s.m_rotateDegree := by
  have hf := iconFits_eq_false c layer hsmall
  simp only [iconFits] at hf
  simp only [drawGL_events, drawGL_statics]
  generalize hw : (drawGL c env layer ⟨s, []⟩).world = w
  rcases liveCondition_cases layer with ⟨surface, hstate, hsurf⟩ | hlive
  · rw [drawGL_world_of_live c env layer _ surface hstate hsurf, drawGL_createTextures_eq] at hw
    by_cases h0 : env.getTextureId layer.uniqueId = 0 <;>
    cases hc : s.m_createdTexture <;>
    cases ho : layer.m_observer <;>
    by_cases hb : layer.m_playerState = PlayerState.BUFFERING <;>
    simp [drawGL_video, drawGL_notify, h0, hc, ho, hb, hf, World.emit] at hw <;>
    subst hw <;>
    simp [GLEvent.isPosterQuad, GLEvent.isSpinnerQuad, GLEvent.isSpinnerOuterQuad,
      GLEvent.isSpinnerInnerQuad]
  · rw [drawGL_world_of_not_live c env layer _ hlive, drawGL_createTextures_eq] at hw
    by_cases h0 : env.getTextureId layer.uniqueId = 0 <;>
    cases hm : env.getMatrix layer.uniqueId <;>
    cases hc : s.m_createdTexture <;>
    cases ho : layer.m_observer <;>
    by_cases hp : layer.m_playerState = PlayerState.PREPARING <;>
    simp [drawGL_fallback, drawGL_notify, h0, hm, hc, ho, hp, hf, World.emit] at hw <;>
    subst hw <;>
    simp [GLEvent.isPosterQuad, GLEvent.isSpinnerQuad, GLEvent.isSpinnerOuterQuad,
      GLEvent.isSpinnerInnerQuad]

/-- C6 at a PREPARING layer that is wide enough (100) but too low (63 against 64). -/
theorem drawGL_small_layer_witness :
    (drawGL_events exampleConstants emptyCache (exampleLayer 100 63 PlayerState.PREPARING)
        VideoLayerStatics.initial).filter (fun e => e.isPosterQuad || e.isSpinnerQuad) = [] ∧
    (drawGL_statics exampleConstants emptyCache (exampleLayer 100 63 PlayerState.PREPARING)
        VideoLayerStatics.initial).m_rotateDegree = VideoLayerStatics.initial.m_rotateDegree :=
  drawGL_small_layer exampleConstants emptyCache (exampleLayer 100 63 PlayerState.PREPARING)
    VideoLayerStatics.initial
    (Or.inr (by norm_num [exampleLayer, exampleConstants, VideoLayerAndroid.getSize]))

/-! ## The render pass: overlays and notification -/

/-- C7, as the spec states it, fails: a BUFFERING layer of 10 by 10 with a surface texture and
texture 9 in the manager gets its live video quad and no spinner quad. -/
theorem drawGL_buffering_small_counterexample :
    (exampleLayer 10 10 PlayerState.BUFFERING).m_playerState = PlayerState.BUFFERING ∧
    (exampleLayer 10 10 PlayerState.BUFFERING).m_surfaceTexture = some 7 ∧
    fullCache.getTextureId (exampleLayer 10 10 PlayerState.BUFFERING).uniqueId = 9 ∧
    (drawGL_events exampleConstants fullCache (exampleLayer 10 10 PlayerState.BUFFERING)
        VideoLayerStatics.initial).filter GLEvent.isLiveVideoQuad =
      [GLEvent.drawVideoLayerQuad (TransformationMatrix.given 0)
          (MatrixArg.surfaceMatrix [1, 0, 0, 0, 0, 1, 0, 0, 0, 0, 1, 0, 0, 0, 0, 1])
          ⟨0, 0, 10, 10⟩ 9] ∧
    (drawGL_events exampleConstants fullCache (exampleLayer 10 10 PlayerState.BUFFERING)
        VideoLayerStatics.initial).filter GLEvent.isSpinnerQuad = [] := by
  decide

/-- C7, amended: in a pass over a BUFFERING layer with a surface texture and a non-zero texture
id from the manager, the quads of the pass are the live video quad followed by the outer and
the inner ring of the spinner when the icon rect fits the layer bounds, and the live video
quad alone when it does not fit. -/
theorem drawGL_buffering_spinner (c : Constants) (env : Collaborators)
    (layer : VideoLayerAndroid) (s : VideoLayerStatics) (surface : SurfaceTexture)
    (hb : layer.m_playerState = PlayerState.BUFFERING)
    (hsurf : layer.m_surfaceTexture = some surface)
    (htex : env.getTextureId layer.uniqueId ≠ 0) :
    (iconFits c layer = true →
      ∃ outer inner, outer.isSpinnerOuterQuad = true ∧ inner.isSpinnerInnerQuad = true ∧
        (drawGL_events c env layer s).filter GLEvent.isQuad =
          [GLEvent.drawVideoLayerQuad layer.m_drawTransform
            (MatrixArg.surfaceMatrix (env.getTransformMatrix surface)) (layerRect layer)
            (env.getTextureId layer.uniqueId), outer, inner]) ∧
    (iconFits c layer = false →
      (drawGL_events c env layer s).filter GLEvent.isQuad =
        [GLEvent.drawVideoLayerQuad layer.m_drawTransform
          (MatrixArg.surfaceMatrix (env.getTransformMatrix surface)) (layerRect layer)
          (env.getTextureId layer.uniqueId)]) := by
  rw [drawGL_events, drawGL_world_of_live c env layer _ surface (Or.inr (Or.inr hb)) hsurf,
    drawGL_createTextures_eq]
  simp only [iconFits]
  refine ⟨fun hf => ?_, fun hf => ?_⟩ <;>
  cases hc : s.m_createdTexture <;>
  cases ho : layer.m_observer <;>
  simp [drawGL_video, drawGL_notify, htex, hc, ho, hb, hf, World.emit, showProgressSpinner,
    GLEvent.isQuad, GLEvent.isSpinnerOuterQuad, GLEvent.isSpinnerInnerQuad]

/-- The amended C7 at a BUFFERING layer of 100 by 100: the live video quad, then the rings. -/
theorem drawGL_buffering_spinner_witness :
    ∃ outer inner, outer.isSpinnerOuterQuad = true ∧ inner.isSpinnerInnerQuad = true ∧
      (drawGL_events exampleConstants fullCache (exampleLayer 100 100 PlayerState.BUFFERING)
        VideoLayerStatics.initial).filter GLEvent.isQuad =
        [GLEvent.drawVideoLayerQuad (TransformationMatrix.given 0)
          (MatrixArg.surfaceMatrix [1, 0, 0, 0, 0, 1, 0, 0, 0, 0, 1, 0, 0, 0, 0, 1])
          ⟨0, 0, 100, 100⟩ 9, outer, inner] :=
  (drawGL_buffering_spinner exampleConstants fullCache
    (exampleLayer 100 100 PlayerState.BUFFERING) VideoLayerStatics.initial 7 rfl rfl
    (by decide)).1 (by decide)

/-- C8, as the spec states it, fails: an INITIALIZED layer of 10 by 10 with nothing in the
manager gets no quad at all, so none of the four treatments is drawn. -/
theorem drawGL_nothing_drawn_counterexample :
    (drawGL_events exampleConstants emptyCache (exampleLayer 10 10 PlayerState.INITIALIZED)
        VideoLayerStatics.initial).filter GLEvent.isQuad = [] := by
  decide

/-- C8, amended: a pass draws at most one quad among live video quad, screenshot quad and
background plate; it draws none of them exactly when the condition of line 211 holds and the
manager answers texture id 0, or when that condition fails, the manager does not hold both a
texture id and a matrix, and the icon rect does not fit; and a pass that draws none of them
draws no quad at all. -/
theorem drawGL_body_at_most_once (c : Constants) (env : Collaborators)
    (layer : VideoLayerAndroid) (s : VideoLayerStatics) :
    ((drawGL_events c env layer s).filter GLEvent.isBodyQuad).length ≤ 1 ∧
    ((drawGL_events c env layer s).filter GLEvent.isBodyQuad = [] ↔
      (liveCondition layer ∧ env.getTextureId layer.uniqueId = 0) ∨
      (¬ liveCondition layer ∧ ¬ cacheComplete env layer ∧ iconFits c layer = false)) ∧
    ((drawGL_events c env layer s).filter GLEvent.isBodyQuad = [] →
      (drawGL_events c env layer s).filter GLEvent.isQuad = []) := by
  simp only [drawGL_events]
  generalize hw : (drawGL c env layer ⟨s, []⟩).world = w
  rcases liveCondition_cases layer with ⟨surface, hstate, hsurf⟩ | hlive
  · have hl : liveCondition layer := ⟨hstate, by simp [hsurf]⟩
    rw [drawGL_world_of_live c env layer _ surface hstate hsurf, drawGL_createTextures_eq] at hw
    by_cases h0 : env.getTextureId layer.uniqueId = 0 <;>
    cases hc : s.m_createdTexture <;>
    cases ho : layer.m_observer <;>
    by_cases hb : layer.m_playerState = PlayerState.BUFFERING <;>
    cases hf : (calculateInnerRectBounds (layerRect layer)
      (SkRect.ofIntRect (buttonRect c))).1 <;>
    simp [drawGL_video, drawGL_notify, h0, hc, ho, hb, hf, World.emit,
      showProgressSpinner] at hw <;>
    subst hw <;>
    simp [GLEvent.isBodyQuad, GLEvent.isLiveVideoQuad, GLEvent.isScreenshotQuad,
      GLEvent.isBackgroundQuad, GLEvent.isQuad, hl, h0]
  · rw [drawGL_world_of_not_live c env layer _ hlive, drawGL_createTextures_eq] at hw
    by_cases h0 : env.getTextureId layer.uniqueId = 0 <;>
    cases hm : env.getMatrix layer.uniqueId <;>
    cases hc : s.m_createdTexture <;>
    cases ho : layer.m_observer <;>
    by_cases hp : layer.m_playerState = PlayerState.PREPARING <;>
    cases hf : (calculateInnerRectBounds (layerRect layer)
      (SkRect.ofIntRect (buttonRect c))).1 <;>
    simp [drawGL_fallback, drawGL_notify, h0, hm, hc, ho, hp, hf, World.emit,
      showProgressSpinner] at hw <;>
    subst hw <;>
    simp [GLEvent.isBodyQuad, GLEvent.isLiveVideoQuad, GLEvent.isScreenshotQuad,
      GLEvent.isBackgroundQuad, GLEvent.isQuad, hlive, h0, hm, hf, cacheComplete, iconFits]

/-- Integer division that truncates toward zero, against the rational quotient: the floor for
a quotient that is not negative, the ceiling for one that is not positive. -/
theorem tdiv_truncates (q : Rat) :
    (0 ≤ q → ((q.num.tdiv (q.den : Int) : Int) : Rat) ≤ q ∧
      q < ((q.num.tdiv (q.den : Int) : Int) : Rat) + 1) ∧
    (q ≤ 0 → q ≤ ((q.num.tdiv (q.den : Int) : Int) : Rat) ∧
      ((q.num.tdiv (q.den : Int) : Int) : Rat) - 1 < q) := by
  have hden : (0 : Int) ≤ (q.den : Int) := Int.natCast_nonneg _
  constructor
  · intro hq
    have hnum : 0 ≤ q.num := Rat.num_nonneg.2 hq
    rw [Int.tdiv_eq_ediv hnum hden, ← Rat.floor_def]
    exact ⟨Int.floor_le q, Int.lt_floor_add_one q⟩
  · intro hq
    have hnum : 0 ≤ -q.num := by
      have := Rat.num_nonpos.2 hq
      omega
    have hneg : q.num.tdiv (q.den : Int) = -⌊-q⌋ := by
      have h1 : q.num.tdiv (q.den : Int) = -((-q.num).tdiv (q.den : Int)) := by
        rw [Int.neg_tdiv, neg_neg]
      rw [h1, Int.tdiv_eq_ediv hnum hden, Rat.floor_def]
      simp
    rw [hneg]
    have h1 := Int.floor_le (-q)
    have h2 := Int.lt_floor_add_one (-q)
    push_cast
    constructor <;> linarith

/-- A defined `scalarToInt` is in the range of `int` and is the truncation toward zero. -/
theorem scalarToInt_spec (q : Rat) (t : Int) (h : scalarToInt q = some t) :
    INT_MIN ≤ t ∧ t ≤ INT_MAX ∧
    (0 ≤ q → (t : Rat) ≤ q ∧ q < (t : Rat) + 1) ∧
    (q ≤ 0 → q ≤ (t : Rat) ∧ (t : Rat) - 1 < q) := by
  unfold scalarToInt at h
  by_cases hr : INT_MIN ≤ q.num.tdiv (q.den : Int) ∧ q.num.tdiv (q.den : Int) ≤ INT_MAX
  · simp only [hr, and_self, if_true, Option.some.injEq] at h
    subst h
    exact ⟨hr.1, hr.2, (tdiv_truncates q).1, (tdiv_truncates q).2⟩
  · simp [hr] at h

/-- An integer in the range of `int` converts to itself. -/
theorem scalarToInt_intCast (n : Int) (h1 : INT_MIN ≤ n) (h2 : n ≤ INT_MAX) :
    scalarToInt (n : Rat) = some n := by
  simp [scalarToInt, h1, h2]

/-- The conversion is defined for every scalar whose truncation is in the range of `int`. -/
theorem scalarToInt_isSome (q : Rat) (h1 : (INT_MIN : Rat) - 1 < q)
    (h2 : q < (INT_MAX : Rat) + 1) : ∃ t, scalarToInt q = some t := by
  have hrange : INT_MIN ≤ q.num.tdiv (q.den : Int) ∧ q.num.tdiv (q.den : Int) ≤ INT_MAX := by
    have hmin : INT_MIN ≤ 0 := by decide
    have hmax : (0 : Int) ≤ INT_MAX := by decide
    rcases le_total 0 q with hq | hq
    · obtain ⟨a, b⟩ := (tdiv_truncates q).1 hq
      constructor
      · have h0 : (-1 : Rat) < ((q.num.tdiv (q.den : Int) : Int) : Rat) := by linarith
        have h0' : (-1 : Int) < q.num.tdiv (q.den : Int) := by exact_mod_cast h0
        omega
      · have h0 : ((q.num.tdiv (q.den : Int) : Int) : Rat) < ((INT_MAX + 1 : Int) : Rat) := by
          push_cast
          linarith
        have h0' : q.num.tdiv (q.den : Int) < INT_MAX + 1 := by exact_mod_cast h0
        omega
    · obtain ⟨a, b⟩ := (tdiv_truncates q).2 hq
      constructor
      · have h0 : ((INT_MIN - 1 : Int) : Rat) < ((q.num.tdiv (q.den : Int) : Int) : Rat) := by
          push_cast
          linarith
        have h0' : INT_MIN - 1 < q.num.tdiv (q.den : Int) := by exact_mod_cast h0
        omega
      · have h0 : ((q.num.tdiv (q.den : Int) : Int) : Rat) < 1 := by linarith
        have h0' : q.num.tdiv (q.den : Int) < 1 := by exact_mod_cast h0
        omega
  exact ⟨q.num.tdiv (q.den : Int), by simp [scalarToInt, hrange]⟩

/-- The calls of a pass up to the notification, and the notification with its argument. -/
theorem drawGL_notify_position (c : Constants) (env : Collaborators)
    (layer : VideoLayerAndroid) (s : VideoLayerStatics) :
    ∃ pre, pre.filter GLEvent.isNotify = [] ∧
      drawGL_events c env layer s =
        pre ++
          (match layer.m_observer with
            | some observer =>
              [GLEvent.notifyRectChange observer
                ((IntSize.ofScalars (layerRect layer).width (layerRect layer).height).map
                  (rectInScreenCoord layer.m_drawTransform))]
            | none => []) ++
          [GLEvent.drawChildrenGL] := by
  simp only [drawGL_events]
  rcases liveCondition_cases layer with ⟨surface, hstate, hsurf⟩ | hlive
  · rw [drawGL_world_of_live c env layer _ surface hstate hsurf]
    refine ⟨(drawGL_video c env layer surface (layerRect layer)
      (drawGL_createTextures env ⟨s, []⟩)).trace, ?_, ?_⟩
    · rw [drawGL_createTextures_eq]
      generalize hw : drawGL_video c env layer surface (layerRect layer) _ = w
      by_cases h0 : env.getTextureId layer.uniqueId = 0 <;>
      cases hc : s.m_createdTexture <;>
      by_cases hb : layer.m_playerState = PlayerState.BUFFERING <;>
      cases hf : (calculateInnerRectBounds (layerRect layer)
        (SkRect.ofIntRect (buttonRect c))).1 <;>
      simp [drawGL_video, h0, hc, hb, hf, World.emit, showProgressSpinner] at hw <;>
      subst hw <;>
      simp [GLEvent.isNotify]
    · cases ho : layer.m_observer <;> simp [drawGL_notify, ho, World.emit]
  · rw [drawGL_world_of_not_live c env layer _ hlive]
    refine ⟨(drawGL_fallback c env layer (layerRect layer)
      (drawGL_createTextures env ⟨s, []⟩)).trace, ?_, ?_⟩
    · rw [drawGL_createTextures_eq]
      generalize hw : drawGL_fallback c env layer (layerRect layer) _ = w
      by_cases h0 : env.getTextureId layer.uniqueId = 0 <;>
      cases hm : env.getMatrix layer.uniqueId <;>
      cases hc : s.m_createdTexture <;>
      by_cases hp : layer.m_playerState = PlayerState.PREPARING <;>
      cases hf : (calculateInnerRectBounds (layerRect layer)
        (SkRect.ofIntRect (buttonRect c))).1 <;>
      simp [drawGL_fallback, h0, hm, hc, hp, hf, World.emit, showProgressSpinner] at hw <;>
      subst hw <;>
      simp [GLEvent.isNotify]
    · cases ho : layer.m_observer <;> simp [drawGL_notify, ho, World.emit]

/-- The argument of the notification, spelled out on the size of the layer: the conversion of
line 275 applied to the width and the height of the bounds. -/
theorem notified_rect_eq (layer : VideoLayerAndroid) :
    (IntSize.ofScalars (layerRect layer).width (layerRect layer).height).map
        (rectInScreenCoord layer.m_drawTransform) =
      match scalarToInt layer.getSize.fWidth, scalarToInt layer.getSize.fHeight with
      | some w, some h => some { drawMatrix := layer.m_drawTransform, size := ⟨w, h⟩ }
      | _, _ => none := by
  simp only [layerRect, SkRect.MakeSize, SkRect.width, SkRect.height, sub_zero,
    IntSize.ofScalars, rectInScreenCoord]
  cases scalarToInt layer.getSize.fWidth <;> cases scalarToInt layer.getSize.fHeight <;> rfl

/-- C9: the calls of a pass are some calls `pre` without any `notifyRectChange`, then, when an
observer is registered, one `notifyRectChange` on it, then `drawChildrenGL`; every quad the
pass draws is in `pre`. So the observer is notified once, after every quad of the pass, on
every path, and when no observer is registered nothing is notified. The argument is
`rectInScreenCoord` of the draw transform and the size of the full layer bounds as an
`IntSize`: for a layer of `n` by `m` with integers in the range of `int` it is exactly `n` by
`m`; in general each side is the side of the bounds truncated toward zero, and it is defined
whenever those truncations are in the range of `int`. -/
theorem drawGL_notifies_observer (c : Constants) (env : Collaborators)
    (layer : VideoLayerAndroid) (s : VideoLayerStatics) :
    (∃ pre, pre.filter GLEvent.isNotify = [] ∧
      (drawGL_events c env layer s).filter GLEvent.isQuad = pre.filter GLEvent.isQuad ∧
      drawGL_events c env layer s =
        pre ++
          (match layer.m_observer with
            | some observer =>
              [GLEvent.notifyRectChange observer
                ((IntSize.ofScalars (layerRect layer).width (layerRect layer).height).map
                  (rectInScreenCoord layer.m_drawTransform))]
            | none => []) ++
          [GLEvent.drawChildrenGL]) ∧
    (∀ n m : Int, layer.getSize = ⟨(n : Rat), (m : Rat)⟩ →
      INT_MIN ≤ n → n ≤ INT_MAX → INT_MIN ≤ m → m ≤ INT_MAX →
      (IntSize.ofScalars (layerRect layer).width (layerRect layer).height).map
          (rectInScreenCoord layer.m_drawTransform) =
        some { drawMatrix := layer.m_drawTransform, size := { m_width := n, m_height := m } }) ∧
    (∀ rect : ScreenRect,
      (IntSize.ofScalars (layerRect layer).width (layerRect layer).height).map
          (rectInScreenCoord layer.m_drawTransform) = some rect →
      rect.drawMatrix = layer.m_drawTransform ∧
      (INT_MIN ≤ rect.size.m_width ∧ rect.size.m_width ≤ INT_MAX) ∧
      (INT_MIN ≤ rect.size.m_height ∧ rect.size.m_height ≤ INT_MAX) ∧
      (0 ≤ layer.getSize.fWidth →
        (rect.size.m_width : Rat) ≤ layer.getSize.fWidth ∧
        layer.getSize.fWidth < (rect.size.m_width : Rat) + 1) ∧
      (layer.getSize.fWidth ≤ 0 →
        layer.getSize.fWidth ≤ (rect.size.m_width : Rat) ∧
        (rect.size.m_width : Rat) - 1 < layer.getSize.fWidth) ∧
      (0 ≤ layer.getSize.fHeight →
        (rect.size.m_height : Rat) ≤ layer.getSize.fHeight ∧
        layer.getSize.fHeight < (rect.size.m_height : Rat) + 1) ∧
      (layer.getSize.fHeight ≤ 0 →
        layer.getSize.fHeight ≤ (rect.size.m_height : Rat) ∧
        (rect.size.m_height : Rat) - 1 < layer.getSize.fHeight)) ∧
    ((INT_MIN : Rat) - 1 < layer.getSize.fWidth → layer.getSize.fWidth < (INT_MAX : Rat) + 1 →
      (INT_MIN : Rat) - 1 < layer.getSize.fHeight →
      layer.getSize.fHeight < (INT_MAX : Rat) + 1 →
      ∃ rect : ScreenRect,
        (IntSize.ofScalars (layerRect layer).width (layerRect layer).height).map
          (rectInScreenCoord layer.m_drawTransform) = some rect) := by
  refine ⟨?_, ?_, ?_, ?_⟩
  · obtain ⟨pre, h1, h2⟩ := drawGL_notify_position c env layer s
    refine ⟨pre, h1, ?_, h2⟩
    rw [h2]
    cases layer.m_observer <;> simp [List.filter_append, GLEvent.isQuad]
  · intro n m hsize hn1 hn2 hm1 hm2
    rw [notified_rect_eq, hsize]
    simp only [scalarToInt_intCast n hn1 hn2, scalarToInt_intCast m hm1 hm2]
  · intro rect hrect
    rw [notified_rect_eq] at hrect
    cases hw : scalarToInt layer.getSize.fWidth with
    | none => simp [hw] at hrect
    | some tw =>
      cases hh : scalarToInt layer.getSize.fHeight with
      | none => simp [hw, hh] at hrect
      | some th =>
        simp only [hw, hh, Option.some.injEq] at hrect
        subst hrect
        obtain ⟨a1, a2, a3, a4⟩ := scalarToInt_spec _ _ hw
        obtain ⟨b1, b2, b3, b4⟩ := scalarToInt_spec _ _ hh
        exact ⟨rfl, ⟨a1, a2⟩, ⟨b1, b2⟩, a3, a4, b3, b4⟩
  · intro hw1 hw2 hh1 hh2
    obtain ⟨tw, hw⟩ := scalarToInt_isSome _ hw1 hw2
    obtain ⟨th, hh⟩ := scalarToInt_isSome _ hh1 hh2
    rw [notified_rect_eq]
    exact ⟨⟨layer.m_drawTransform, ⟨tw, th⟩⟩, by simp only [hw, hh]⟩

/-- C9 at a PLAYING layer of 300 by 200 with observer 3: one notification, with the draw
transform and the size 300 by 200; and at a layer of 300.5 by 200 the notified size is 300 by
200 as well. -/
theorem drawGL_notifies_observer_witness :
    (drawGL_events exampleConstants emptyCache (exampleLayer 300 200 PlayerState.PLAYING)
        VideoLayerStatics.initial).filter GLEvent.isNotify =
      [GLEvent.notifyRectChange 3
        (some { drawMatrix := TransformationMatrix.given 0,
                size := { m_width := 300, m_height := 200 } })] ∧
    (IntSize.ofScalars (layerRect (exampleLayer (601 / 2) 200 PlayerState.PLAYING)).width
        (layerRect (exampleLayer (601 / 2) 200 PlayerState.PLAYING)).height).map
        (rectInScreenCoord (TransformationMatrix.given 0)) =
      some { drawMatrix := TransformationMatrix.given 0,
             size := { m_width := 300, m_height := 200 } } := by
  constructor
  · obtain ⟨⟨pre, h1, _, h3⟩, h4, _, _⟩ := drawGL_notifies_observer exampleConstants emptyCache
      (exampleLayer 300 200 PlayerState.PLAYING) VideoLayerStatics.initial
    have h5 := h4 300 200 (by simp [exampleLayer, VideoLayerAndroid.getSize]) (by decide)
      (by decide) (by decide) (by decide)
    rw [h3, h5]
    simp [List.filter_append, h1, GLEvent.isNotify, exampleLayer]
  · obtain ⟨_, _, h3, h4⟩ := drawGL_notifies_observer exampleConstants emptyCache
      (exampleLayer (601 / 2) 200 PlayerState.PLAYING) VideoLayerStatics.initial
    obtain ⟨rect, hrect⟩ := h4
      (by norm_num [exampleLayer, VideoLayerAndroid.getSize, INT_MIN])
      (by norm_num [exampleLayer, VideoLayerAndroid.getSize, INT_MAX])
      (by norm_num [exampleLayer, VideoLayerAndroid.getSize, INT_MIN])
      (by norm_num [exampleLayer, VideoLayerAndroid.getSize, INT_MAX])
    obtain ⟨g1, _, _, g4, _, g6, _⟩ := h3 rect hrect
    have hw := g4 (by norm_num [exampleLayer, VideoLayerAndroid.getSize])
    have hh := g6 (by norm_num [exampleLayer, VideoLayerAndroid.getSize])
    simp only [exampleLayer, VideoLayerAndroid.getSize] at hw hh
    have w1 : rect.size.m_width = 300 := by
      have a : (rect.size.m_width : Rat) < ((301 : Int) : Rat) := by push_cast; linarith [hw.1]
      have b : ((299 : Int) : Rat) < (rect.size.m_width : Rat) := by push_cast; linarith [hw.2]
      have a' : rect.size.m_width < 301 := by exact_mod_cast a
      have b' : (299 : Int) < rect.size.m_width := by exact_mod_cast b
      omega
    have w2 : rect.size.m_height = 200 := by
      have a : (rect.size.m_height : Rat) < ((201 : Int) : Rat) := by push_cast; linarith [hh.1]
      have b : ((199 : Int) : Rat) < (rect.size.m_height : Rat) := by
        push_cast; linarith [hh.2]
      have a' : rect.size.m_height < 201 := by exact_mod_cast a
      have b' : (199 : Int) < rect.size.m_height := by exact_mod_cast b
      omega
    have hrect' : rect = ⟨TransformationMatrix.given 0, ⟨300, 200⟩⟩ := by
      cases rect with
      | mk dm sz =>
        cases sz with
        | mk a b =>
          simp only [exampleLayer] at g1
          simp only at w1 w2 g1
          subst w1; subst w2; subst g1
          rfl
    rw [← hrect']
    exact hrect

/-! ## The observer registry -/

/-- C10: `registerVideoLayerObserver(o)` leaves the node holding `o`; when `o` differs from the
observer `p` held before, the count of `p` goes down by one and the count of `o` goes up by
one (each unless null) and no other count changes; when `o` is `p` no count changes.
Consequently, after any sequence of calls on a node that was constructed or copy-constructed,
the node has added exactly one reference to its current observer and none to any other
object, and its destructor returns every count to where it started. -/
theorem registerVideoLayerObserver_refcounts (layer : VideoLayerAndroid)
    (observer : Option ObserverPtr) (rc rc0 : RefCounts) (base : LayerAndroid)
    (calls : List NodeCall) :
    (layer.registerVideoLayerObserver observer rc).1.m_observer = observer ∧
    (observer ≠ layer.m_observer →
      ∀ x, (layer.registerVideoLayerObserver observer rc).2 x =
        rc x + (if observer = some x then 1 else 0) -
          (if layer.m_observer = some x then 1 else 0)) ∧
    (observer = layer.m_observer → (layer.registerVideoLayerObserver observer rc).2 = rc) ∧
    (∀ x, (runCalls calls (VideoLayerAndroid.ctor base, rc0)).2 x - rc0 x =
      if (runCalls calls (VideoLayerAndroid.ctor base, rc0)).1.m_observer = some x then 1
      else 0) ∧
    (∀ x, (runCalls calls (layer.copyCtor, rc0)).2 x - rc0 x =
      if (runCalls calls (layer.copyCtor, rc0)).1.m_observer = some x then 1 else 0) ∧
    (runCalls calls (VideoLayerAndroid.ctor base, rc0)).1.dtor
      (runCalls calls (VideoLayerAndroid.ctor base, rc0)).2 = rc0 := by
  refine ⟨registerVideoLayerObserver_observer layer observer rc,
    fun _ x => registerVideoLayerObserver_counts layer observer rc x, ?_, ?_, ?_, ?_⟩
  · intro h
    simp [VideoLayerAndroid.registerVideoLayerObserver, h]
  · exact runCalls_holdsOneReference rc0 calls _
      (fun x => by simp [VideoLayerAndroid.ctor])
  · exact runCalls_holdsOneReference rc0 calls _
      (fun x => by simp [VideoLayerAndroid.copyCtor])
  · have h := runCalls_holdsOneReference rc0 calls (VideoLayerAndroid.ctor base, rc0)
      (fun x => by simp [VideoLayerAndroid.ctor])
    funext x
    have hx := h x
    unfold VideoLayerAndroid.dtor SkSafeUnref
    rcases ho : (runCalls calls (VideoLayerAndroid.ctor base, rc0)).1.m_observer with _ | o
    · simp [ho] at hx ⊢; omega
    · simp only [ho, RefCounts.unref] at hx ⊢
      by_cases hxo : x = o
      · simp [hxo] at hx ⊢; omega
      · have : o ≠ x := fun h => hxo h.symm
        simp [hxo, this] at hx ⊢; omega

/-! ## Shared lemmas on whole passes -/

/-- A pass appends its calls to the trace and depends on the statics only. -/
theorem drawGL_world_eq (c : Constants) (env : Collaborators) (layer : VideoLayerAndroid)
    (w : World) :
    (drawGL c env layer w).world =
      ⟨drawGL_statics c env layer w.statics, w.trace ++ drawGL_events c env layer w.statics⟩ := by
  simp only [drawGL_events, drawGL_statics]
  generalize hv : (drawGL c env layer ⟨w.statics, []⟩).world = v
  generalize hu : (drawGL c env layer w).world = u
  rcases liveCondition_cases layer with ⟨surface, hstate, hsurf⟩ | hlive
  · rw [drawGL_world_of_live c env layer _ surface hstate hsurf,
      drawGL_createTextures_eq] at hv hu
    by_cases h0 : env.getTextureId layer.uniqueId = 0 <;>
    cases hc : w.statics.m_createdTexture <;>
    cases ho : layer.m_observer <;>
    by_cases hb : layer.m_playerState = PlayerState.BUFFERING <;>
    cases hf : (calculateInnerRectBounds (layerRect layer)
      (SkRect.ofIntRect (buttonRect c))).1 <;>
    simp [drawGL_video, drawGL_notify, h0, hc, ho, hb, hf, World.emit,
      showProgressSpinner] at hv hu <;>
    subst hv <;> subst hu <;> simp
  · rw [drawGL_world_of_not_live c env layer _ hlive, drawGL_createTextures_eq] at hv hu
    by_cases h0 : env.getTextureId layer.uniqueId = 0 <;>
    cases hm : env.getMatrix layer.uniqueId <;>
    cases hc : w.statics.m_createdTexture <;>
    cases ho : layer.m_observer <;>
    by_cases hp : layer.m_playerState = PlayerState.PREPARING <;>
    cases hf : (calculateInnerRectBounds (layerRect layer)
      (SkRect.ofIntRect (buttonRect c))).1 <;>
    simp [drawGL_fallback, drawGL_notify, h0, hm, hc, ho, hp, hf, World.emit,
      showProgressSpinner] at hv hu <;>
    subst hv <;> subst hu <;> simp

/-- The spinner of one pass: under `spinnerCondition` the pass draws one outer ring at the
angle it starts with, one inner ring at the opposite angle, and adds `ROTATESTEP` to the
angle; otherwise it draws no ring and keeps the angle. -/
theorem drawGL_spinner_cases (c : Constants) (env : Collaborators) (layer : VideoLayerAndroid)
    (s : VideoLayerStatics) :
    (spinnerCondition c env layer →
      (drawGL_statics c env layer s).m_rotateDegree = s.m_rotateDegree + c.ROTATESTEP ∧
      ((drawGL_events c env layer s).filter GLEvent.isSpinnerOuterQuad).map
          GLEvent.rotateDegree = [some s.m_rotateDegree] ∧
      ((drawGL_events c env layer s).filter GLEvent.isSpinnerInnerQuad).map
          GLEvent.rotateDegree = [some (-s.m_rotateDegree)]) ∧
    (¬ spinnerCondition c env layer →
      (drawGL_statics c env layer s).m_rotateDegree = s.m_rotateDegree ∧
      (drawGL_events c env layer s).filter GLEvent.isSpinnerQuad = []) := by
  simp only [drawGL_events, drawGL_statics]
  generalize hw : (drawGL c env layer ⟨s, []⟩).world = w
  rcases liveCondition_cases layer with ⟨surface, hstate, hsurf⟩ | hlive
  · rw [drawGL_world_of_live c env layer _ surface hstate hsurf, drawGL_createTextures_eq] at hw
    have hnp : layer.m_playerState ≠ PlayerState.PREPARING := by
      rcases hstate with h | h | h <;> simp [h]
    by_cases h0 : env.getTextureId layer.uniqueId = 0 <;>
    cases hc : s.m_createdTexture <;>
    cases ho : layer.m_observer <;>
    by_cases hb : layer.m_playerState = PlayerState.BUFFERING <;>
    cases hf : (calculateInnerRectBounds (layerRect layer)
      (SkRect.ofIntRect (buttonRect c))).1 <;>
    simp [drawGL_video, drawGL_notify, h0, hc, ho, hb, hf, World.emit,
      showProgressSpinner] at hw <;>
    subst hw <;>
    simp [GLEvent.isSpinnerQuad, GLEvent.isSpinnerOuterQuad, GLEvent.isSpinnerInnerQuad,
      GLEvent.rotateDegree, spinnerCondition, iconFits, hf, hb, hnp, hsurf, h0]
  · rw [drawGL_world_of_not_live c env layer _ hlive, drawGL_createTextures_eq] at hw
    have hnb : ¬ (layer.m_playerState = PlayerState.BUFFERING ∧
        layer.m_surfaceTexture ≠ none ∧ env.getTextureId layer.uniqueId ≠ 0) := by
      rintro ⟨h1, h2, _⟩
      exact hlive ⟨Or.inr (Or.inr h1), h2⟩
    by_cases h0 : env.getTextureId layer.uniqueId = 0 <;>
    cases hm : env.getMatrix layer.uniqueId <;>
    cases hc : s.m_createdTexture <;>
    cases ho : layer.m_observer <;>
    by_cases hp : layer.m_playerState = PlayerState.PREPARING <;>
    cases hf : (calculateInnerRectBounds (layerRect layer)
      (SkRect.ofIntRect (buttonRect c))).1 <;>
    simp [drawGL_fallback, drawGL_notify, h0, hm, hc, ho, hp, hf, World.emit,
      showProgressSpinner] at hw <;>
    subst hw <;>
    simp [GLEvent.isSpinnerQuad, GLEvent.isSpinnerOuterQuad, GLEvent.isSpinnerInnerQuad,
      GLEvent.rotateDegree, spinnerCondition, iconFits, hf, hp, hnb]

/-- The static textures after one pass: the flag is set; the handles are the generated names
when the pass started with the flag clear, and the handles it started with otherwise. -/
theorem drawGL_static_textures (c : Constants) (env : Collaborators) (layer : VideoLayerAndroid)
    (s : VideoLayerStatics) :
    (drawGL_statics c env layer s).m_createdTexture = true ∧
    (s.m_createdTexture = false →
      (drawGL_statics c env layer s).m_backgroundTextureId = env.genBackgroundTexture ∧
      (drawGL_statics c env layer s).m_spinnerOuterTextureId =
        env.genImageTexture MediaButton.SPINNER_OUTER ∧
      (drawGL_statics c env layer s).m_spinnerInnerTextureId =
        env.genImageTexture MediaButton.SPINNER_INNER ∧
      (drawGL_statics c env layer s).m_posterTextureId =
        env.genImageTexture MediaButton.VIDEO) ∧
    (s.m_createdTexture = true →
      (drawGL_statics c env layer s).m_backgroundTextureId = s.m_backgroundTextureId ∧
      (drawGL_statics c env layer s).m_spinnerOuterTextureId = s.m_spinnerOuterTextureId ∧
      (drawGL_statics c env layer s).m_spinnerInnerTextureId = s.m_spinnerInnerTextureId ∧
      (drawGL_statics c env layer s).m_posterTextureId = s.m_posterTextureId) := by
  simp only [drawGL_statics]
  generalize hw : (drawGL c env layer ⟨s, []⟩).world = w
  rcases liveCondition_cases layer with ⟨surface, hstate, hsurf⟩ | hlive
  · rw [drawGL_world_of_live c env layer _ surface hstate hsurf, drawGL_createTextures_eq] at hw
    by_cases h0 : env.getTextureId layer.uniqueId = 0 <;>
    cases hc : s.m_createdTexture <;>
    cases ho : layer.m_observer <;>
    by_cases hb : layer.m_playerState = PlayerState.BUFFERING <;>
    cases hf : (calculateInnerRectBounds (layerRect layer)
      (SkRect.ofIntRect (buttonRect c))).1 <;>
    simp [drawGL_video, drawGL_notify, h0, hc, ho, hb, hf, World.emit,
      showProgressSpinner] at hw <;>
    subst hw <;>
    simp [hc]
  · rw [drawGL_world_of_not_live c env layer _ hlive, drawGL_createTextures_eq] at hw
    by_cases h0 : env.getTextureId layer.uniqueId = 0 <;>
    cases hm : env.getMatrix layer.uniqueId <;>
    cases hc : s.m_createdTexture <;>
    cases ho : layer.m_observer <;>
    by_cases hp : layer.m_playerState = PlayerState.PREPARING <;>
    cases hf : (calculateInnerRectBounds (layerRect layer)
      (SkRect.ofIntRect (buttonRect c))).1 <;>
    simp [drawGL_fallback, drawGL_notify, h0, hm, hc, ho, hp, hf, World.emit,
      showProgressSpinner] at hw <;>
    subst hw <;>
    simp [hc]

set_option maxHeartbeats 1000000 in
/-- Every `drawLayerQuad` call of a pass passes the handle that the statics hold at the end of
the pass, when the flag is set. -/
theorem drawGL_reads_statics (c : Constants) (env : Collaborators) (layer : VideoLayerAndroid)
    (s : VideoLayerStatics) :
    ∀ e ∈ drawGL_events c env layer s, e.readsFrom (drawGL_statics c env layer s) := by
  simp only [drawGL_events, drawGL_statics]
  generalize hw : (drawGL c env layer ⟨s, []⟩).world = w
  rcases liveCondition_cases layer with ⟨surface, hstate, hsurf⟩ | hlive
  · rw [drawGL_world_of_live c env layer _ surface hstate hsurf, drawGL_createTextures_eq] at hw
    by_cases h0 : env.getTextureId layer.uniqueId = 0 <;>
    cases hc : s.m_createdTexture <;>
    cases ho : layer.m_observer <;>
    by_cases hb : layer.m_playerState = PlayerState.BUFFERING <;>
    cases hf : (calculateInnerRectBounds (layerRect layer)
      (SkRect.ofIntRect (buttonRect c))).1 <;>
    simp [drawGL_video, drawGL_notify, h0, hc, ho, hb, hf, World.emit,
      showProgressSpinner] at hw <;>
    subst hw <;>
    simp [GLEvent.readsFrom, VideoLayerStatics.textureOf]
  · rw [drawGL_world_of_not_live c env layer _ hlive, drawGL_createTextures_eq] at hw
    by_cases h0 : env.getTextureId layer.uniqueId = 0 <;>
    cases hm : env.getMatrix layer.uniqueId <;>
    cases hc : s.m_createdTexture <;>
    cases ho : layer.m_observer <;>
    by_cases hp : layer.m_playerState = PlayerState.PREPARING <;>
    cases hf : (calculateInnerRectBounds (layerRect layer)
      (SkRect.ofIntRect (buttonRect c))).1 <;>
    simp [drawGL_fallback, drawGL_notify, h0, hm, hc, ho, hp, hf, World.emit,
      showProgressSpinner] at hw <;>
    subst hw <;>
    simp [GLEvent.readsFrom, VideoLayerStatics.textureOf]

set_option maxHeartbeats 1000000 in
/-- The creation calls of a pass are its first calls: the four of `creationCalls` when the pass
starts with the flag clear, none when it starts with the flag set. -/
theorem drawGL_creation_events (c : Constants) (env : Collaborators)
    (layer : VideoLayerAndroid) (s : VideoLayerStatics) :
    ∃ rest, rest.filter GLEvent.isCreateTexture = [] ∧
      drawGL_events c env layer s =
        (if s.m_createdTexture = true then [] else creationCalls env) ++ rest := by
  simp only [drawGL_events]
  generalize hw : (drawGL c env layer ⟨s, []⟩).world = w
  rcases liveCondition_cases layer with ⟨surface, hstate, hsurf⟩ | hlive
  · rw [drawGL_world_of_live c env layer _ surface hstate hsurf, drawGL_createTextures_eq] at hw
    by_cases h0 : env.getTextureId layer.uniqueId = 0 <;>
    cases hc : s.m_createdTexture <;>
    cases ho : layer.m_observer <;>
    by_cases hb : layer.m_playerState = PlayerState.BUFFERING <;>
    cases hf : (calculateInnerRectBounds (layerRect layer)
      (SkRect.ofIntRect (buttonRect c))).1 <;>
    simp [drawGL_video, drawGL_notify, h0, hc, ho, hb, hf, World.emit,
      showProgressSpinner] at hw <;>
    subst hw <;>
    simp [GLEvent.isCreateTexture, creationCalls]
  · rw [drawGL_world_of_not_live c env layer _ hlive, drawGL_createTextures_eq] at hw
    by_cases h0 : env.getTextureId layer.uniqueId = 0 <;>
    cases hm : env.getMatrix layer.uniqueId <;>
    cases hc : s.m_createdTexture <;>
    cases ho : layer.m_observer <;>
    by_cases hp : layer.m_playerState = PlayerState.PREPARING <;>
    cases hf : (calculateInnerRectBounds (layerRect layer)
      (SkRect.ofIntRect (buttonRect c))).1 <;>
    simp [drawGL_fallback, drawGL_notify, h0, hm, hc, ho, hp, hf, World.emit,
      showProgressSpinner] at hw <;>
    subst hw <;>
    simp [GLEvent.isCreateTexture, creationCalls]

set_option maxHeartbeats 1000000 in
/-- The calls of the live-video path: with the condition of line 211 the pass pulls the frame
once, and draws the live video quad followed by `updateMatrix` exactly when the texture id is
not zero; without that condition it makes none of these calls. -/
theorem drawGL_live_calls (c : Constants) (env : Collaborators) (layer : VideoLayerAndroid)
    (s : VideoLayerStatics) :
    (∀ surface, liveCondition layer → layer.m_surfaceTexture = some surface →
      (drawGL_events c env layer s).filter GLEvent.isUpdateTexImage =
        [GLEvent.updateTexImage surface] ∧
      (env.getTextureId layer.uniqueId ≠ 0 →
        (drawGL_events c env layer s).filter
            (fun e => e.isLiveVideoQuad || e.isUpdateMatrix) =
          [GLEvent.drawVideoLayerQuad layer.m_drawTransform
              (MatrixArg.surfaceMatrix (env.getTransformMatrix surface)) (layerRect layer)
              (env.getTextureId layer.uniqueId),
            GLEvent.updateMatrix layer.uniqueId (env.getTransformMatrix surface)]) ∧
      (env.getTextureId layer.uniqueId = 0 →
        (drawGL_events c env layer s).filter
            (fun e => e.isLiveVideoQuad || e.isUpdateMatrix) = [])) ∧
    (¬ liveCondition layer →
      (drawGL_events c env layer s).filter
        (fun e => e.isUpdateTexImage || e.isLiveVideoQuad || e.isUpdateMatrix) = []) := by
  simp only [drawGL_events]
  generalize hw : (drawGL c env layer ⟨s, []⟩).world = w
  rcases liveCondition_cases layer with ⟨surface, hstate, hsurf⟩ | hlive
  · have hl : liveCondition layer := ⟨hstate, by simp [hsurf]⟩
    rw [drawGL_world_of_live c env layer _ surface hstate hsurf, drawGL_createTextures_eq] at hw
    by_cases h0 : env.getTextureId layer.uniqueId = 0 <;>
    cases hc : s.m_createdTexture <;>
    cases ho : layer.m_observer <;>
    by_cases hb : layer.m_playerState = PlayerState.BUFFERING <;>
    cases hf : (calculateInnerRectBounds (layerRect layer)
      (SkRect.ofIntRect (buttonRect c))).1 <;>
    simp [drawGL_video, drawGL_notify, h0, hc, ho, hb, hf, World.emit,
      showProgressSpinner] at hw <;>
    subst hw <;>
    simp [GLEvent.isUpdateTexImage, GLEvent.isLiveVideoQuad, GLEvent.isUpdateMatrix, hl, hsurf,
      h0]
  · rw [drawGL_world_of_not_live c env layer _ hlive, drawGL_createTextures_eq] at hw
    by_cases h0 : env.getTextureId layer.uniqueId = 0 <;>
    cases hm : env.getMatrix layer.uniqueId <;>
    cases hc : s.m_createdTexture <;>
    cases ho : layer.m_observer <;>
    by_cases hp : layer.m_playerState = PlayerState.PREPARING <;>
    cases hf : (calculateInnerRectBounds (layerRect layer)
      (SkRect.ofIntRect (buttonRect c))).1 <;>
    simp [drawGL_fallback, drawGL_notify, h0, hm, hc, ho, hp, hf, World.emit,
      showProgressSpinner] at hw <;>
    subst hw <;>
    simp [GLEvent.isUpdateTexImage, GLEvent.isLiveVideoQuad, GLEvent.isUpdateMatrix, hlive]

/-- A pass on a layer without observer makes no `notifyRectChange` call. -/
theorem drawGL_no_notify (c : Constants) (env : Collaborators) (layer : VideoLayerAndroid)
    (s : VideoLayerStatics) (ho : layer.m_observer = none) :
    (drawGL_events c env layer s).filter GLEvent.isNotify = [] := by
  simp only [drawGL_events]
  generalize hw : (drawGL c env layer ⟨s, []⟩).world = w
  rcases liveCondition_cases layer with ⟨surface, hstate, hsurf⟩ | hlive
  · rw [drawGL_world_of_live c env layer _ surface hstate hsurf, drawGL_createTextures_eq] at hw
    by_cases h0 : env.getTextureId layer.uniqueId = 0 <;>
    cases hc : s.m_createdTexture <;>
    by_cases hb : layer.m_playerState = PlayerState.BUFFERING <;>
    cases hf : (calculateInnerRectBounds (layerRect layer)
      (SkRect.ofIntRect (buttonRect c))).1 <;>
    simp [drawGL_video, drawGL_notify, h0, hc, ho, hb, hf, World.emit,
      showProgressSpinner] at hw <;>
    subst hw <;>
    simp [GLEvent.isNotify]
  · rw [drawGL_world_of_not_live c env layer _ hlive, drawGL_createTextures_eq] at hw
    by_cases h0 : env.getTextureId layer.uniqueId = 0 <;>
    cases hm : env.getMatrix layer.uniqueId <;>
    cases hc : s.m_createdTexture <;>
    by_cases hp : layer.m_playerState = PlayerState.PREPARING <;>
    cases hf : (calculateInnerRectBounds (layerRect layer)
      (SkRect.ofIntRect (buttonRect c))).1 <;>
    simp [drawGL_fallback, drawGL_notify, h0, hm, hc, ho, hp, hf, World.emit,
      showProgressSpinner] at hw <;>
    subst hw <;>
    simp [GLEvent.isNotify]

/-- The handle a `drawLayerQuad` call passes depends on the four handles only. -/
theorem readsFrom_of_textureOf_eq (s t : VideoLayerStatics)
    (h : ∀ member, s.textureOf member = t.textureOf member) (e : GLEvent)
    (he : e.readsFrom s) : e.readsFrom t := by
  cases e <;> simp_all [GLEvent.readsFrom]

/-- The four handles after one pass, member by member. -/
theorem drawGL_textureOf (c : Constants) (env : Collaborators) (layer : VideoLayerAndroid)
    (s : VideoLayerStatics) :
    (s.m_createdTexture = false →
      ∀ member, (drawGL_statics c env layer s).textureOf member = env.genTexture member) ∧
    (s.m_createdTexture = true →
      ∀ member, (drawGL_statics c env layer s).textureOf member = s.textureOf member) := by
  have h := drawGL_static_textures c env layer s
  constructor
  · intro hs member
    obtain ⟨h1, h2, h3, h4⟩ := h.2.1 hs
    cases member <;> simp [VideoLayerStatics.textureOf, Collaborators.genTexture, h1, h2, h3, h4]
  · intro hs member
    obtain ⟨h1, h2, h3, h4⟩ := h.2.2 hs
    cases member <;> simp [VideoLayerStatics.textureOf, h1, h2, h3, h4]

/-- Passes that start with the flag set keep the flag and the four handles, create no texture,
and draw with the handles they started with. -/
theorem drawGL_passes_created (c : Constants) (passes : List (Collaborators × VideoLayerAndroid))
    (w : World) (hflag : w.statics.m_createdTexture = true) :
    (drawGL_passes c passes w).statics.m_createdTexture = true ∧
    (∀ member, (drawGL_passes c passes w).statics.textureOf member =
      w.statics.textureOf member) ∧
    ∃ tail, (drawGL_passes c passes w).trace = w.trace ++ tail ∧
      tail.filter GLEvent.isCreateTexture = [] ∧ ∀ e ∈ tail, e.readsFrom w.statics := by
  induction passes generalizing w with
  | nil => exact ⟨hflag, fun _ => rfl, [], by simp [drawGL_passes], rfl, by simp⟩
  | cons pass rest ih =>
    simp only [drawGL_passes]
    rw [drawGL_world_eq]
    have hst := drawGL_static_textures c pass.1 pass.2 w.statics
    have htex := (drawGL_textureOf c pass.1 pass.2 w.statics).2 hflag
    obtain ⟨rest1, hrest1, hev⟩ := drawGL_creation_events c pass.1 pass.2 w.statics
    simp only [hflag, if_true, List.nil_append] at hev
    have hreads := drawGL_reads_statics c pass.1 pass.2 w.statics
    obtain ⟨h1, h2, tail, h3, h4, h5⟩ :=
      ih ⟨drawGL_statics c pass.1 pass.2 w.statics,
        w.trace ++ drawGL_events c pass.1 pass.2 w.statics⟩ hst.1
    refine ⟨h1, fun m => (h2 m).trans (htex m),
      drawGL_events c pass.1 pass.2 w.statics ++ tail, ?_, ?_, ?_⟩
    · rw [h3, List.append_assoc]
    · rw [List.filter_append, h4, hev, hrest1]
      rfl
    · intro e he
      rcases List.mem_append.1 he with h | h
      · exact readsFrom_of_textureOf_eq _ _ htex e (hreads e h)
      · exact readsFrom_of_textureOf_eq _ _ htex e (h5 e h)

/-- Filtering on one of two event kinds, through the filter on either. -/
theorem filter_left_of_or (p q : GLEvent → Bool) (l : List GLEvent) :
    l.filter p = (l.filter (fun e => p e || q e)).filter p := by
  rw [List.filter_filter]
  congr 1
  funext e
  cases p e <;> simp

/-- Filtering on the other of two event kinds, through the filter on either. -/
theorem filter_right_of_or (p q : GLEvent → Bool) (l : List GLEvent) :
    l.filter q = (l.filter (fun e => p e || q e)).filter q := by
  rw [List.filter_filter]
  congr 1
  funext e
  cases q e <;> simp

/-! ## The spinner -/

/-- C11: each `showProgressSpinner` call adds exactly `ROTATESTEP` to `m_rotateDegree`, and the
angle is shared by all nodes: when two nodes that show the spinner are rendered one after the
other, the rings of the first are drawn at the angle the first pass starts with, the rings of
the second at that angle plus `ROTATESTEP` (inner rings at the opposite angles), which is
strictly larger when `ROTATESTEP` is positive; after both passes the angle has advanced by
two steps. -/
theorem showProgressSpinner_advances_angle (c : Constants) (layer : VideoLayerAndroid)
    (r : SkRect) (w : World) (env1 env2 : Collaborators) (layer1 layer2 : VideoLayerAndroid)
    (s : VideoLayerStatics)
    (h1 : spinnerCondition c env1 layer1) (h2 : spinnerCondition c env2 layer2) :
    (showProgressSpinner c layer r w).statics.m_rotateDegree =
      w.statics.m_rotateDegree + c.ROTATESTEP ∧
    ((drawGL_passes c [(env1, layer1), (env2, layer2)] ⟨s, []⟩).trace.filter
        GLEvent.isSpinnerOuterQuad).map GLEvent.rotateDegree =
      [some s.m_rotateDegree, some (s.m_rotateDegree + c.ROTATESTEP)] ∧
    ((drawGL_passes c [(env1, layer1), (env2, layer2)] ⟨s, []⟩).trace.filter
        GLEvent.isSpinnerInnerQuad).map GLEvent.rotateDegree =
      [some (-s.m_rotateDegree), some (-(s.m_rotateDegree + c.ROTATESTEP))] ∧
    (drawGL_passes c [(env1, layer1), (env2, layer2)] ⟨s, []⟩).statics.m_rotateDegree =
      s.m_rotateDegree + c.ROTATESTEP + c.ROTATESTEP ∧
    (0 < c.ROTATESTEP → s.m_rotateDegree < s.m_rotateDegree + c.ROTATESTEP) := by
  obtain ⟨a1, a2, a3⟩ := (drawGL_spinner_cases c env1 layer1 s).1 h1
  obtain ⟨b1, b2, b3⟩ :=
    (drawGL_spinner_cases c env2 layer2 (drawGL_statics c env1 layer1 s)).1 h2
  refine ⟨by simp [showProgressSpinner, World.emit], ?_, ?_, ?_, fun h => by linarith⟩
  · simp only [drawGL_passes]
    rw [drawGL_world_eq, drawGL_world_eq]
    simp only [List.nil_append, List.filter_append, List.map_append, a2, b2, a1]
    rfl
  · simp only [drawGL_passes]
    rw [drawGL_world_eq, drawGL_world_eq]
    simp only [List.nil_append, List.filter_append, List.map_append, a3, b3, a1]
    rfl
  · simp only [drawGL_passes]
    rw [drawGL_world_eq, drawGL_world_eq]
    simp only [b1, a1]

/-- C11 at a PREPARING layer followed by a BUFFERING layer, both 100 by 100, starting from the
initial statics: outer rings at 0 and then at 12. -/
theorem showProgressSpinner_advances_angle_witness :
    ((drawGL_passes exampleConstants
        [(fullCache, exampleLayer 100 100 PlayerState.PREPARING),
          (fullCache, exampleLayer 100 100 PlayerState.BUFFERING)]
        ⟨VideoLayerStatics.initial, []⟩).trace.filter
        GLEvent.isSpinnerOuterQuad).map GLEvent.rotateDegree =
      [some VideoLayerStatics.initial.m_rotateDegree,
        some (VideoLayerStatics.initial.m_rotateDegree + exampleConstants.ROTATESTEP)] :=
  (showProgressSpinner_advances_angle exampleConstants
    (exampleLayer 100 100 PlayerState.PREPARING) ⟨0, 0, 64, 64⟩
    ⟨VideoLayerStatics.initial, []⟩ fullCache fullCache
    (exampleLayer 100 100 PlayerState.PREPARING) (exampleLayer 100 100 PlayerState.BUFFERING)
    VideoLayerStatics.initial ⟨by decide, Or.inr rfl⟩
    ⟨by decide, Or.inl ⟨rfl, by decide, by decide⟩⟩).2.1

/-- The icon rect that `drawGL` hands to `showProgressSpinner` is `IMAGESIZE` wide and high:
`calculateInnerRectBounds` only moves `buttonRect`. -/
theorem iconRect_size (c : Constants) (layer : VideoLayerAndroid) :
    (iconRect c layer).fRight - (iconRect c layer).fLeft = (c.IMAGESIZE : Rat) ∧
    (iconRect c layer).fBottom - (iconRect c layer).fTop = (c.IMAGESIZE : Rat) := by
  simp only [iconRect, calculateInnerRectBounds]
  split <;>
    simp [SkRect.offset, SkRect.ofIntRect, buttonRect]

/-- C16: one `showProgressSpinner` call with icon rect `r` at angle `a` appends exactly two
`drawLayerQuad` calls, both over `(0, 0, r.fRight - r.fLeft, r.fBottom - r.fTop)`, the width
and height of `r`, with opacity 1 and blending forced: first `m_spinnerOuterTextureId` with
the draw transform followed by `translate(r.fLeft, r.fTop)`,
`translate(IMAGESIZE / 2, IMAGESIZE / 2)`, `rotate(a)` and
`translate(-(IMAGESIZE / 2), -(IMAGESIZE / 2))`, then `m_spinnerInnerTextureId` with the same
transform except `rotate(-a)`; `a` is the angle before the call, and the call leaves the
angle at `a + ROTATESTEP`. The quotient is the integer one; for an even `IMAGESIZE` it is
exactly half the icon size, and for an `r` of `IMAGESIZE` by `IMAGESIZE`, which is what
`drawGL` passes, the two first translations lead to the centre of `r`. -/
theorem showProgressSpinner_quads (c : Constants) (layer : VideoLayerAndroid) (r : SkRect)
    (w : World) (other : VideoLayerAndroid) :
    (showProgressSpinner c layer r w).trace =
      w.trace ++
        [GLEvent.drawLayerQuad
          (TransformationMatrix.translate
            (TransformationMatrix.rotate
              (TransformationMatrix.translate
                (TransformationMatrix.translate layer.m_drawTransform r.fLeft r.fTop)
                ((c.IMAGESIZE.tdiv 2 : Int) : Rat) ((c.IMAGESIZE.tdiv 2 : Int) : Rat))
              w.statics.m_rotateDegree)
            (-((c.IMAGESIZE.tdiv 2 : Int) : Rat)) (-((c.IMAGESIZE.tdiv 2 : Int) : Rat)))
          { fLeft := 0, fTop := 0, fRight := r.fRight - r.fLeft, fBottom := r.fBottom - r.fTop }
          StaticTexture.m_spinnerOuterTextureId w.statics.m_spinnerOuterTextureId 1 true,
        GLEvent.drawLayerQuad
          (TransformationMatrix.translate
            (TransformationMatrix.rotate
              (TransformationMatrix.translate
                (TransformationMatrix.translate layer.m_drawTransform r.fLeft r.fTop)
                ((c.IMAGESIZE.tdiv 2 : Int) : Rat) ((c.IMAGESIZE.tdiv 2 : Int) : Rat))
              (-w.statics.m_rotateDegree))
            (-((c.IMAGESIZE.tdiv 2 : Int) : Rat)) (-((c.IMAGESIZE.tdiv 2 : Int) : Rat)))
          { fLeft := 0, fTop := 0, fRight := r.fRight - r.fLeft, fBottom := r.fBottom - r.fTop }
          StaticTexture.m_spinnerInnerTextureId w.statics.m_spinnerInnerTextureId 1 true] ∧
    (showProgressSpinner c layer r w).statics.m_rotateDegree =
      w.statics.m_rotateDegree + c.ROTATESTEP ∧
    (2 ∣ c.IMAGESIZE → ((c.IMAGESIZE.tdiv 2 : Int) : Rat) = (c.IMAGESIZE : Rat) / 2) ∧
    (2 ∣ c.IMAGESIZE → r.fRight - r.fLeft = (c.IMAGESIZE : Rat) →
      r.fBottom - r.fTop = (c.IMAGESIZE : Rat) →
      r.fLeft + ((c.IMAGESIZE.tdiv 2 : Int) : Rat) = (r.fLeft + r.fRight) / 2 ∧
      r.fTop + ((c.IMAGESIZE.tdiv 2 : Int) : Rat) = (r.fTop + r.fBottom) / 2) ∧
    ((iconRect c other).fRight - (iconRect c other).fLeft = (c.IMAGESIZE : Rat) ∧
      (iconRect c other).fBottom - (iconRect c other).fTop = (c.IMAGESIZE : Rat)) := by
  have hneg : (((-c.IMAGESIZE).tdiv 2 : Int) : Rat) = -((c.IMAGESIZE.tdiv 2 : Int) : Rat) := by
    rw [Int.neg_tdiv]; push_cast; rfl
  have hhalf : 2 ∣ c.IMAGESIZE →
      ((c.IMAGESIZE.tdiv 2 : Int) : Rat) = (c.IMAGESIZE : Rat) / 2 := by
    rintro ⟨k, hk⟩
    have h2 : c.IMAGESIZE.tdiv 2 = k := by
      rw [hk, Int.tdiv_eq_ediv_of_dvd ⟨k, rfl⟩]
      omega
    rw [h2, hk]
    push_cast
    ring
  refine ⟨?_, ?_, hhalf, ?_, iconRect_size c other⟩
  · simp [showProgressSpinner, World.emit, hneg, SkRect.MakeWH, SkRect.width, SkRect.height]
  · simp [showProgressSpinner, World.emit]
  · intro heven hw hh
    rw [hhalf heven]
    constructor <;> linarith

/-- C16 at `IMAGESIZE` 64, the icon rect (18, 18, 82, 82) of a layer of 100 by 100 and the
angle 24: both rings over (0, 0, 64, 64), translated to (18, 18), then by (32, 32), which is
the centre (50, 50) of the icon rect, rotated by 24 and by -24, and translated back by
(-32, -32). -/
theorem showProgressSpinner_quads_witness :
    (showProgressSpinner exampleConstants (exampleLayer 100 100 PlayerState.PREPARING)
        ⟨18, 18, 82, 82⟩
        ⟨{ VideoLayerStatics.initial with
            m_spinnerOuterTextureId := 2, m_spinnerInnerTextureId := 3, m_rotateDegree := 24 },
          []⟩).trace =
      [GLEvent.drawLayerQuad
        (TransformationMatrix.translate
          (TransformationMatrix.rotate
            (TransformationMatrix.translate
              (TransformationMatrix.translate (TransformationMatrix.given 0) 18 18) 32 32)
            24)
          (-32) (-32))
        ⟨0, 0, 64, 64⟩ StaticTexture.m_spinnerOuterTextureId 2 1 true,
      GLEvent.drawLayerQuad
        (TransformationMatrix.translate
          (TransformationMatrix.rotate
            (TransformationMatrix.translate
              (TransformationMatrix.translate (TransformationMatrix.given 0) 18 18) 32 32)
            (-24))
          (-32) (-32))
        ⟨0, 0, 64, 64⟩ StaticTexture.m_spinnerInnerTextureId 3 1 true] ∧
    ((18 : Rat) + 32 = (18 + 82) / 2) ∧
    iconRect exampleConstants (exampleLayer 100 100 PlayerState.PREPARING) =
      ⟨18, 18, 82, 82⟩ := by
  have h := showProgressSpinner_quads exampleConstants
    (exampleLayer 100 100 PlayerState.PREPARING) ⟨18, 18, 82, 82⟩
    ⟨{ VideoLayerStatics.initial with
        m_spinnerOuterTextureId := 2, m_spinnerInnerTextureId := 3, m_rotateDegree := 24 },
      []⟩ (exampleLayer 100 100 PlayerState.PREPARING)
  have ht : (exampleConstants.IMAGESIZE.tdiv 2 : Int) = 32 := by decide
  refine ⟨?_, by norm_num, ?_⟩
  · rw [h.1, ht]
    norm_num [exampleLayer]
  · simp [iconRect, calculateInnerRectBounds, layerRect, SkRect.MakeSize,
      VideoLayerAndroid.getSize, exampleLayer, exampleConstants, SkRect.ofIntRect, buttonRect,
      SkRect.contains, SkRect.isEmpty, SkRect.offset, SkRect.width, SkRect.height]
    norm_num

/-- C17: a pass draws at most one outer and at most one inner ring, so it calls the spinner at
most once; it calls it exactly under `spinnerCondition` (the icon rect fits, and the state is
BUFFERING with a surface texture and a texture id, or the state is PREPARING), and then the
angle advances by one `ROTATESTEP`; in every other pass no ring is drawn and the angle is
unchanged. -/
theorem drawGL_spinner_at_most_once (c : Constants) (env : Collaborators)
    (layer : VideoLayerAndroid) (s : VideoLayerStatics) :
    ((drawGL_events c env layer s).filter GLEvent.isSpinnerOuterQuad).length ≤ 1 ∧
    ((drawGL_events c env layer s).filter GLEvent.isSpinnerInnerQuad).length ≤ 1 ∧
    (spinnerCondition c env layer →
      ((drawGL_events c env layer s).filter GLEvent.isSpinnerOuterQuad).length = 1 ∧
      ((drawGL_events c env layer s).filter GLEvent.isSpinnerInnerQuad).length = 1 ∧
      (drawGL_statics c env layer s).m_rotateDegree = s.m_rotateDegree + c.ROTATESTEP) ∧
    (¬ spinnerCondition c env layer →
      (drawGL_events c env layer s).filter GLEvent.isSpinnerQuad = [] ∧
      (drawGL_statics c env layer s).m_rotateDegree = s.m_rotateDegree) ∧
    ((drawGL_statics c env layer s).m_rotateDegree = s.m_rotateDegree ∨
      (drawGL_statics c env layer s).m_rotateDegree = s.m_rotateDegree + c.ROTATESTEP) := by
  have hcases := drawGL_spinner_cases c env layer s
  have hyes : spinnerCondition c env layer →
      ((drawGL_events c env layer s).filter GLEvent.isSpinnerOuterQuad).length = 1 ∧
      ((drawGL_events c env layer s).filter GLEvent.isSpinnerInnerQuad).length = 1 ∧
      (drawGL_statics c env layer s).m_rotateDegree = s.m_rotateDegree + c.ROTATESTEP := by
    intro h
    obtain ⟨a1, a2, a3⟩ := hcases.1 h
    have l2 := congrArg List.length a2
    have l3 := congrArg List.length a3
    simp only [List.length_map, List.length_singleton] at l2 l3
    exact ⟨l2, l3, a1⟩
  have hno : ¬ spinnerCondition c env layer →
      (drawGL_events c env layer s).filter GLEvent.isSpinnerOuterQuad = [] ∧
      (drawGL_events c env layer s).filter GLEvent.isSpinnerInnerQuad = [] := by
    intro h
    have hnil := (hcases.2 h).2
    rw [filter_left_of_or GLEvent.isSpinnerOuterQuad GLEvent.isSpinnerInnerQuad,
      filter_right_of_or GLEvent.isSpinnerOuterQuad GLEvent.isSpinnerInnerQuad]
    have hfun : (fun e : GLEvent => e.isSpinnerOuterQuad || e.isSpinnerInnerQuad) =
        GLEvent.isSpinnerQuad := rfl
    rw [hfun, hnil]
    exact ⟨rfl, rfl⟩
  by_cases h : spinnerCondition c env layer
  · obtain ⟨l2, l3, a1⟩ := hyes h
    exact ⟨le_of_eq l2, le_of_eq l3, hyes, fun hn => absurd h hn, Or.inr a1⟩
  · obtain ⟨n1, n2⟩ := hno h
    refine ⟨by simp [n1], by simp [n2], hyes, fun _ => ⟨(hcases.2 h).2, (hcases.2 h).1⟩,
      Or.inl (hcases.2 h).1⟩

/-! ## The icon textures -/

/-- C12: texture creation happens once over any sequence of serialized passes. A pass that
starts with the flag clear makes the four creation calls, sets the flag and stores the four
generated names; a pass that starts with the flag set makes no creation call and keeps the
four handles. Over passes `first :: later` from the initial statics, the trace is the four
creation calls of the first pass followed by calls that create nothing, and every
`drawLayerQuad` among them passes the handle generated in the first pass, for every node.
From the initial statics the flag is set exactly after at least one pass, in which case the
four handles are the generated ones. -/
theorem drawGL_creates_textures_once (c : Constants) (env : Collaborators)
    (layer : VideoLayerAndroid) (s : VideoLayerStatics)
    (first : Collaborators × VideoLayerAndroid)
    (later passes : List (Collaborators × VideoLayerAndroid)) :
    (s.m_createdTexture = false →
      (drawGL_events c env layer s).filter GLEvent.isCreateTexture = creationCalls env ∧
      (drawGL_statics c env layer s).m_createdTexture = true ∧
      ∀ member, (drawGL_statics c env layer s).textureOf member = env.genTexture member) ∧
    (s.m_createdTexture = true →
      (drawGL_events c env layer s).filter GLEvent.isCreateTexture = [] ∧
      (drawGL_statics c env layer s).m_createdTexture = true ∧
      ∀ member, (drawGL_statics c env layer s).textureOf member = s.textureOf member) ∧
    (∀ e ∈ drawGL_events c env layer s, e.readsFrom (drawGL_statics c env layer s)) ∧
    (∃ tail,
      (drawGL_passes c (first :: later) ⟨VideoLayerStatics.initial, []⟩).trace =
        creationCalls first.1 ++ tail ∧
      tail.filter GLEvent.isCreateTexture = [] ∧
      ∀ e ∈ tail, e.readsFrom
        (drawGL_passes c (first :: later) ⟨VideoLayerStatics.initial, []⟩).statics) ∧
    (drawGL_passes c (first :: later) ⟨VideoLayerStatics.initial, []⟩).trace.filter
      GLEvent.isCreateTexture = creationCalls first.1 ∧
    (∀ member,
      (drawGL_passes c (first :: later) ⟨VideoLayerStatics.initial, []⟩).statics.textureOf
        member = first.1.genTexture member) ∧
    ((drawGL_passes c passes ⟨VideoLayerStatics.initial, []⟩).statics.m_createdTexture = true ↔
      passes ≠ []) := by
  have hcreate : ∀ e : Collaborators,
      (creationCalls e).filter GLEvent.isCreateTexture = creationCalls e := fun e => by
    simp [creationCalls, GLEvent.isCreateTexture]
  have hflag := drawGL_static_textures c env layer s
  have htex := drawGL_textureOf c env layer s
  obtain ⟨rest, hrest, hev⟩ := drawGL_creation_events c env layer s
  have hfirst := drawGL_static_textures c first.1 first.2 VideoLayerStatics.initial
  have hfirstTex := (drawGL_textureOf c first.1 first.2 VideoLayerStatics.initial).1 rfl
  obtain ⟨rest1, hrest1, hev1⟩ :=
    drawGL_creation_events c first.1 first.2 VideoLayerStatics.initial
  have hinit : VideoLayerStatics.initial.m_createdTexture = false := rfl
  simp only [hinit, Bool.false_eq_true, if_false] at hev1
  have hreads1 := drawGL_reads_statics c first.1 first.2 VideoLayerStatics.initial
  obtain ⟨k1, k2, tail, k3, k4, k5⟩ := drawGL_passes_created c later
    ⟨drawGL_statics c first.1 first.2 VideoLayerStatics.initial,
      drawGL_events c first.1 first.2 VideoLayerStatics.initial⟩ hfirst.1
  have hrun : drawGL_passes c (first :: later) ⟨VideoLayerStatics.initial, []⟩ =
      drawGL_passes c later
        ⟨drawGL_statics c first.1 first.2 VideoLayerStatics.initial,
          drawGL_events c first.1 first.2 VideoLayerStatics.initial⟩ := by
    simp only [drawGL_passes]
    rw [drawGL_world_eq]
    rfl
  have htrace : (drawGL_passes c (first :: later) ⟨VideoLayerStatics.initial, []⟩).trace =
      creationCalls first.1 ++ (rest1 ++ tail) := by
    rw [hrun, k3]
    simp only [hev1, List.append_assoc]
  have htailCreate : (rest1 ++ tail).filter GLEvent.isCreateTexture = [] := by
    rw [List.filter_append, hrest1, k4]
    rfl
  refine ⟨fun hs => ⟨?_, hflag.1, htex.1 hs⟩, fun hs => ⟨?_, hflag.1, htex.2 hs⟩,
    drawGL_reads_statics c env layer s, ⟨rest1 ++ tail, htrace, htailCreate, ?_⟩, ?_, ?_, ?_⟩
  · rw [hev]
    simp only [hs, Bool.false_eq_true, if_false, List.filter_append, hcreate, hrest,
      List.append_nil]
  · rw [hev]
    simp only [hs, if_true, List.nil_append, hrest]
  · intro e he
    rw [hrun]
    have hsame : ∀ member,
        (drawGL_statics c first.1 first.2 VideoLayerStatics.initial).textureOf member =
          (drawGL_passes c later
            ⟨drawGL_statics c first.1 first.2 VideoLayerStatics.initial,
              drawGL_events c first.1 first.2 VideoLayerStatics.initial⟩).statics.textureOf
            member := fun member => (k2 member).symm
    rcases List.mem_append.1 he with h | h
    · refine readsFrom_of_textureOf_eq _ _ hsame e (hreads1 e ?_)
      rw [hev1]
      exact List.mem_append.2 (Or.inr h)
    · exact readsFrom_of_textureOf_eq _ _ hsame e (k5 e h)
  · rw [htrace, List.filter_append, hcreate, htailCreate, List.append_nil]
  · intro member
    rw [hrun, k2 member]
    exact hfirstTex member
  · cases passes with
    | nil => simp [drawGL_passes, VideoLayerStatics.initial]
    | cons p ps =>
      have hp := drawGL_static_textures c p.1 p.2 VideoLayerStatics.initial
      have hq := drawGL_passes_created c ps
        ⟨drawGL_statics c p.1 p.2 VideoLayerStatics.initial,
          drawGL_events c p.1 p.2 VideoLayerStatics.initial⟩ hp.1
      have hrun2 : drawGL_passes c (p :: ps) ⟨VideoLayerStatics.initial, []⟩ =
          drawGL_passes c ps
            ⟨drawGL_statics c p.1 p.2 VideoLayerStatics.initial,
              drawGL_events c p.1 p.2 VideoLayerStatics.initial⟩ := by
        simp only [drawGL_passes]
        rw [drawGL_world_eq]
        rfl
      rw [hrun2]
      simp [hq.1]

/-! ## Node operations -/

/-- C13: the copy constructor keeps the player state and the base layer, and leaves the copy
with no surface texture and no observer, whatever the source holds; the source is a value the
constructor only reads. A pass on the copy therefore makes no `updateTexImage` call, draws no
live video quad, makes no `updateMatrix` call and notifies nobody, also when the copied state
is PREPARED, PLAYING or BUFFERING. -/
theorem copyCtor_resets_surface_and_observer (layer : VideoLayerAndroid) (c : Constants)
    (env : Collaborators) (s : VideoLayerStatics) :
    layer.copyCtor.m_playerState = layer.m_playerState ∧
    layer.copyCtor.toLayerAndroid = layer.toLayerAndroid ∧
    layer.copyCtor.m_surfaceTexture = none ∧
    layer.copyCtor.m_observer = none ∧
    (drawGL_events c env layer.copyCtor s).filter
      (fun e => e.isUpdateTexImage || e.isLiveVideoQuad || e.isUpdateMatrix) = [] ∧
    (drawGL_events c env layer.copyCtor s).filter GLEvent.isNotify = [] := by
  have hlive : ¬ liveCondition layer.copyCtor := by
    simp [liveCondition, VideoLayerAndroid.copyCtor]
  exact ⟨rfl, rfl, rfl, rfl, (drawGL_live_calls c env layer.copyCtor s).2 hlive,
    drawGL_no_notify c env layer.copyCtor s rfl⟩

/-- C15: `setPlayerState(s)` leaves the node in state `s` whatever the state before, changes
neither the surface texture nor the observer nor the base layer nor any reference count, and
is defined for every node and state; after any sequence of such calls the state is the last
one asked for, no transition being refused. -/
theorem setPlayerState_overwrites (layer : VideoLayerAndroid) (state : PlayerState)
    (states : List PlayerState) (rc : RefCounts) :
    (layer.setPlayerState state).m_playerState = state ∧
    (layer.setPlayerState state).m_surfaceTexture = layer.m_surfaceTexture ∧
    (layer.setPlayerState state).m_observer = layer.m_observer ∧
    (layer.setPlayerState state).toLayerAndroid = layer.toLayerAndroid ∧
    ((NodeCall.setPlayerState state).run (layer, rc)).2 = rc ∧
    ((states ++ [state]).foldl VideoLayerAndroid.setPlayerState layer).m_playerState =
      state := by
  refine ⟨rfl, rfl, rfl, rfl, rfl, ?_⟩
  simp [List.foldl_append, VideoLayerAndroid.setPlayerState]

/-! ## Geometry -/

/-- C14: for bounds `(0, 0, w, h)` and the icon rect `(0, 0, S, S)` with `S > 0`, over exact
arithmetic, `calculateInnerRectBounds` answers true exactly when `w >= S` and `h >= S`; when
it answers true the icon rect is moved by `((w - S) / 2, (h - S) / 2)`, keeps its size `S` by
`S`, lies inside the bounds and has equal left and right and equal top and bottom margins;
when it answers false the icon rect is unchanged. These are the rects `drawGL` passes. -/
theorem calculateInnerRectBounds_centered (w h S : Rat) (hS : 0 < S) (c : Constants)
    (layer : VideoLayerAndroid) :
    ((calculateInnerRectBounds ⟨0, 0, w, h⟩ ⟨0, 0, S, S⟩).1 = true ↔ S ≤ w ∧ S ≤ h) ∧
    ((calculateInnerRectBounds ⟨0, 0, w, h⟩ ⟨0, 0, S, S⟩).1 = true →
      (calculateInnerRectBounds ⟨0, 0, w, h⟩ ⟨0, 0, S, S⟩).2 =
        SkRect.offset ⟨0, 0, S, S⟩ ((w - S) / 2) ((h - S) / 2) ∧
      (calculateInnerRectBounds ⟨0, 0, w, h⟩ ⟨0, 0, S, S⟩).2.width = S ∧
      (calculateInnerRectBounds ⟨0, 0, w, h⟩ ⟨0, 0, S, S⟩).2.height = S ∧
      0 ≤ (calculateInnerRectBounds ⟨0, 0, w, h⟩ ⟨0, 0, S, S⟩).2.fLeft ∧
      0 ≤ (calculateInnerRectBounds ⟨0, 0, w, h⟩ ⟨0, 0, S, S⟩).2.fTop ∧
      (calculateInnerRectBounds ⟨0, 0, w, h⟩ ⟨0, 0, S, S⟩).2.fRight ≤ w ∧
      (calculateInnerRectBounds ⟨0, 0, w, h⟩ ⟨0, 0, S, S⟩).2.fBottom ≤ h ∧
      (calculateInnerRectBounds ⟨0, 0, w, h⟩ ⟨0, 0, S, S⟩).2.fLeft - 0 =
        w - (calculateInnerRectBounds ⟨0, 0, w, h⟩ ⟨0, 0, S, S⟩).2.fRight ∧
      (calculateInnerRectBounds ⟨0, 0, w, h⟩ ⟨0, 0, S, S⟩).2.fTop - 0 =
        h - (calculateInnerRectBounds ⟨0, 0, w, h⟩ ⟨0, 0, S, S⟩).2.fBottom) ∧
    ((calculateInnerRectBounds ⟨0, 0, w, h⟩ ⟨0, 0, S, S⟩).1 = false →
      (calculateInnerRectBounds ⟨0, 0, w, h⟩ ⟨0, 0, S, S⟩).2 = ⟨0, 0, S, S⟩) ∧
    layerRect layer = ⟨0, 0, layer.getSize.fWidth, layer.getSize.fHeight⟩ ∧
    SkRect.ofIntRect (buttonRect c) = ⟨0, 0, (c.IMAGESIZE : Rat), (c.IMAGESIZE : Rat)⟩ := by
  have hc : SkRect.contains ⟨0, 0, w, h⟩ ⟨0, 0, S, S⟩ = true ↔ S ≤ w ∧ S ≤ h := by
    simp only [SkRect.contains, SkRect.isEmpty]
    simp
    intro h1 h2
    exact ⟨hS, by linarith, by linarith⟩
  refine ⟨?_, ?_, ?_, rfl, by simp [SkRect.ofIntRect, buttonRect]⟩
  · by_cases hfit : SkRect.contains ⟨0, 0, w, h⟩ ⟨0, 0, S, S⟩ = true
    · simp only [calculateInnerRectBounds, hfit, if_true]
      exact ⟨fun _ => hc.1 hfit, fun _ => trivial⟩
    · have hwh : ¬ (S ≤ w ∧ S ≤ h) := fun h => hfit (hc.2 h)
      simp only [calculateInnerRectBounds, hfit]
      simp [hwh]
  · by_cases hfit : SkRect.contains ⟨0, 0, w, h⟩ ⟨0, 0, S, S⟩ = true
    · have hwh := hc.1 hfit
      simp only [calculateInnerRectBounds, hfit, if_true]
      intro _
      simp only [SkRect.offset, SkRect.width, SkRect.height]
      refine ⟨by simp, by ring, by ring, ?_, ?_, ?_, ?_, by ring, by ring⟩ <;>
        linarith [hwh.1, hwh.2]
    · simp only [calculateInnerRectBounds, hfit]
      intro h
      simp at h
  · by_cases hfit : SkRect.contains ⟨0, 0, w, h⟩ ⟨0, 0, S, S⟩ = true
    · simp only [calculateInnerRectBounds, hfit, if_true]
      intro h
      simp at h
    · simp only [calculateInnerRectBounds, hfit]
      simp

/-- C14 at bounds 100 by 80 and an icon of 64: accepted, and moved by (18, 8). -/
theorem calculateInnerRectBounds_centered_witness :
    (calculateInnerRectBounds ⟨0, 0, 100, 80⟩ ⟨0, 0, 64, 64⟩).1 = true ∧
    (calculateInnerRectBounds ⟨0, 0, 100, 80⟩ ⟨0, 0, 64, 64⟩).2 =
      SkRect.offset ⟨0, 0, 64, 64⟩ ((100 - 64) / 2) ((80 - 64) / 2) :=
  ⟨(calculateInnerRectBounds_centered 100 80 64 (by norm_num) exampleConstants
      (exampleLayer 100 80 PlayerState.INITIALIZED)).1.2 ⟨by norm_num, by norm_num⟩,
    ((calculateInnerRectBounds_centered 100 80 64 (by norm_num) exampleConstants
      (exampleLayer 100 80 PlayerState.INITIALIZED)).2.1
      ((calculateInnerRectBounds_centered 100 80 64 (by norm_num) exampleConstants
        (exampleLayer 100 80 PlayerState.INITIALIZED)).1.2 ⟨by norm_num, by norm_num⟩)).1⟩

/-! ## The live-video path -/

/-- C18: a pass calls `updateTexImage`, once, exactly when the state is PREPARED, PLAYING or
BUFFERING and a surface texture is attached, whatever texture id the manager answers; it
calls `updateMatrix` as often as it draws the live video quad, at most once, and does so
exactly when that condition holds and the texture id is not zero. -/
theorem drawGL_pulls_and_updates (c : Constants) (env : Collaborators)
    (layer : VideoLayerAndroid) (s : VideoLayerStatics) :
    (liveCondition layer →
      ((drawGL_events c env layer s).filter GLEvent.isUpdateTexImage).length = 1) ∧
    (¬ liveCondition layer →
      (drawGL_events c env layer s).filter GLEvent.isUpdateTexImage = []) ∧
    ((drawGL_events c env layer s).filter GLEvent.isUpdateMatrix).length =
      ((drawGL_events c env layer s).filter GLEvent.isLiveVideoQuad).length ∧
    ((drawGL_events c env layer s).filter GLEvent.isUpdateMatrix).length ≤ 1 ∧
    (((drawGL_events c env layer s).filter GLEvent.isUpdateMatrix).length = 1 ↔
      liveCondition layer ∧ env.getTextureId layer.uniqueId ≠ 0) := by
  have hcalls := drawGL_live_calls c env layer s
  have hq := filter_left_of_or GLEvent.isLiveVideoQuad GLEvent.isUpdateMatrix
    (drawGL_events c env layer s)
  have hu := filter_right_of_or GLEvent.isLiveVideoQuad GLEvent.isUpdateMatrix
    (drawGL_events c env layer s)
  rcases liveCondition_cases layer with ⟨surface, hstate, hsurf⟩ | hlive
  · have hl : liveCondition layer := ⟨hstate, by simp [hsurf]⟩
    obtain ⟨p1, p2, p3⟩ := hcalls.1 surface hl hsurf
    by_cases h0 : env.getTextureId layer.uniqueId = 0
    · rw [p3 h0] at hq hu
      simp [p1, hq, hu, hl, h0]
    · rw [p2 h0] at hq hu
      simp [GLEvent.isLiveVideoQuad, GLEvent.isUpdateMatrix] at hq hu
      simp [p1, hq, hu, hl, h0]
  · have hnone := hcalls.2 hlive
    have ht : (drawGL_events c env layer s).filter GLEvent.isUpdateTexImage = [] := by
      rw [List.filter_eq_nil_iff] at hnone ⊢
      intro e he
      have := hnone e he
      simp only [Bool.or_eq_true, not_or] at this
      simpa using this.1.1
    have hboth : (drawGL_events c env layer s).filter
        (fun e => e.isLiveVideoQuad || e.isUpdateMatrix) = [] := by
      rw [List.filter_eq_nil_iff] at hnone ⊢
      intro e he
      have := hnone e he
      simp only [Bool.or_eq_true, not_or] at this ⊢
      exact ⟨this.1.2, this.2⟩
    rw [hboth] at hq hu
    simp [ht, hq, hu, hlive]

end WebCore
